import Mathlib

/-!
Verification development for the RTP-over-QUIC (RoQ) multiplex/demultiplex core
(`gst-roq`): a shallow embedding of the muxer (`gstrtpquicmux.c`), the demuxer
(`gstrtpquicdemux.c`) and the process-global flow-identifier allocator
(`gstroqflowidmanager.c`), together with theorems about the embedded code.

Conventions of the embedding:
* machine integers become `Nat` (for the unsigned C types `guint`, `guint32`,
  `guint64`, `gsize`) and `Int` (for `gint64` fields that use `-1` as an
  "unset" sentinel);
* byte buffers become `List Nat` (each element one byte);
* `GHashTable` contents become association lists, `GList` becomes `List`;
* pointers that are only compared for identity (GStreamer pads) become `Nat`
  identifiers, tagged with the pad template kind where the distinction is
  observable;
* timestamps, reference counting, locking and logging are not modelled.
-/

/-- Conversion applied by C's usual arithmetic conversions when a `gint64`
value is compared against a `guint64` value (e.g. `flow_id == rtp_flow_id`
in `gstrtpquicdemux.c`): the signed value is converted to `guint64`
modulo 2^64. -/
def guint64_of_gint64 (v : Int) : Nat := (v % (2 : Int) ^ 64).toNat

/-! ## Varint codec

The muxer and demuxer call `gst_quiclib_set_varint` / `gst_quiclib_get_varint`
from the external `gst-quic-transport` library, which is not part of this
repository's sources. -/

/-- Modelled from the spec: `gst_quiclib_set_varint` of the external quiclib
(spec §4.1 Encode, RFC 9000 §16). The two top bits of the first byte select
the encoded length: `00` → 1 byte (value < 2^6), `01` → 2 bytes (< 2^14),
`10` → 4 bytes (< 2^30), `11` → 8 bytes (< 2^62); remaining bits are
big-endian. -/
def gst_quiclib_set_varint (v : Nat) : List Nat :=
  if v < 0x40 then
    [v]
  else if v < 0x4000 then
    [0x40 ||| (v >>> 8), v &&& 0xff]
  else if v < 0x40000000 then
    [0x80 ||| (v >>> 24), (v >>> 16) &&& 0xff, (v >>> 8) &&& 0xff, v &&& 0xff]
  else
    [0xc0 ||| ((v >>> 56) &&& 0x3f), (v >>> 48) &&& 0xff, (v >>> 40) &&& 0xff,
     (v >>> 32) &&& 0xff, (v >>> 24) &&& 0xff, (v >>> 16) &&& 0xff,
     (v >>> 8) &&& 0xff, v &&& 0xff]

/-- Modelled from the spec: `gst_quiclib_get_varint` of the external quiclib
(spec §4.1 Decode). Reads the first byte, inspects the top two bits, reads
the indicated total number of bytes, clears the two length bits and
interprets the remainder big-endian, returning the decoded value and the
number of bytes consumed. `none` models a buffer shorter than the indicated
length (`ShortInput`). -/
def gst_quiclib_get_varint (data : List Nat) : Option (Nat × Nat) :=
  match data with
  | [] => none
  | b0 :: rest =>
    match b0 >>> 6 with
    | 0 => some (b0 &&& 0x3f, 1)
    | 1 =>
      match rest with
      | b1 :: _ => some (((b0 &&& 0x3f) <<< 8) ||| b1, 2)
      | _ => none
    | 2 =>
      match rest with
      | b1 :: b2 :: b3 :: _ =>
        some (((b0 &&& 0x3f) <<< 24) ||| (b1 <<< 16) ||| (b2 <<< 8) ||| b3, 4)
      | _ => none
    | _ =>
      match rest with
      | b1 :: b2 :: b3 :: b4 :: b5 :: b6 :: b7 :: _ =>
        some (((b0 &&& 0x3f) <<< 56) ||| (b1 <<< 48) ||| (b2 <<< 40) |||
              (b3 <<< 32) ||| (b4 <<< 24) ||| (b5 <<< 16) ||| (b6 <<< 8) ||| b7, 8)
      | _ => none

/-- Reads four bytes starting at `off` big-endian, as the demuxer's
`memcpy (&ssrc, ..., 4)` followed by `ntohl` does.  `none` when the buffer is
too short. -/
def read_u32_be (data : List Nat) (off : Nat) : Option Nat :=
  match data[off]?, data[off+1]?, data[off+2]?, data[off+3]? with
  | some a, some b, some c, some d => some ((a <<< 24) ||| (b <<< 16) ||| (c <<< 8) ||| d)
  | _, _, _, _ => none

/-! ## Flow-ID allocator (`gstroqflowidmanager.c`)

The process-global singleton's registry `manager->flow_ids` is a `GList` of
`guint64` values, embedded as a `List Nat`. -/

/-- Embeds `_check_flow_id_in_use`: linear scan of the registry list. -/
def check_flow_id_in_use : List Nat → Nat → Bool
  | [], _ => false
  | x :: rest, flow_id => if x = flow_id then true else check_flow_id_in_use rest flow_id

/-- Embeds `_roq_flow_id_manager_new_flow_id_instance`: if the flow id is not
in use, append it to the registry and return `TRUE` (the C code returns
`manager->flow_ids != NULL`, which is always true after `g_list_append`);
otherwise return `FALSE` and leave the registry unchanged. -/
def new_flow_id_instance (reg : List Nat) (flow_id : Nat) : Bool × List Nat :=
  if check_flow_id_in_use reg flow_id then
    (false, reg)
  else
    (decide (reg ++ [flow_id] ≠ []), reg ++ [flow_id])

/-- Embeds `_roq_flow_id_manager_retire_flow_id`: removes the first list link
holding the given flow id, if any. -/
def retire_flow_id_instance : List Nat → Nat → List Nat
  | [], _ => []
  | x :: rest, flow_id =>
    if x = flow_id then rest else x :: retire_flow_id_instance rest flow_id

/-- A mutating operation on the flow-id registry, as performed by any caller
of the manager: a claim (`gst_roq_flow_id_manager_new_flow_id`) or a release
(`gst_roq_flow_id_manager_retire_flow_id`). -/
inductive FlowIdOp where
  | claim (flow_id : Nat)
  | release (flow_id : Nat)
deriving DecidableEq, Repr

/-- Applies one registry operation. -/
def applyFlowIdOp (reg : List Nat) : FlowIdOp → List Nat
  | .claim flow_id => (new_flow_id_instance reg flow_id).2
  | .release flow_id => retire_flow_id_instance reg flow_id

/-- Applies a sequence of registry operations in order. -/
def applyFlowIdOps (reg : List Nat) (ops : List FlowIdOp) : List Nat :=
  ops.foldl applyFlowIdOp reg

lemma check_flow_id_in_use_append_self (reg : List Nat) (x : Nat) :
    check_flow_id_in_use (reg ++ [x]) x = true := by
  induction reg with
  | nil => simp [check_flow_id_in_use]
  | cons a rest ih =>
    by_cases h : a = x <;> simp [check_flow_id_in_use, h, ih]

lemma check_flow_id_in_use_append (reg l : List Nat) (x : Nat)
    (h : check_flow_id_in_use reg x = true) :
    check_flow_id_in_use (reg ++ l) x = true := by
  induction reg with
  | nil => simp [check_flow_id_in_use] at h
  | cons a rest ih =>
    by_cases hax : a = x <;>
      simp_all [check_flow_id_in_use, hax]

lemma new_flow_id_fst_of_in_use (reg : List Nat) (f : Nat)
    (h : check_flow_id_in_use reg f = true) :
    (new_flow_id_instance reg f).1 = false := by
  simp [new_flow_id_instance, h]

lemma check_flow_id_in_use_claim (reg : List Nat) (x y : Nat)
    (h : check_flow_id_in_use reg x = true) :
    check_flow_id_in_use (new_flow_id_instance reg y).2 x = true := by
  unfold new_flow_id_instance
  by_cases hy : check_flow_id_in_use reg y
  · simpa [hy] using h
  · simp only [hy, Bool.false_eq_true, if_false]
    exact check_flow_id_in_use_append reg [y] x h

lemma check_flow_id_in_use_release (reg : List Nat) (x y : Nat)
    (hxy : y ≠ x) (h : check_flow_id_in_use reg x = true) :
    check_flow_id_in_use (retire_flow_id_instance reg y) x = true := by
  induction reg with
  | nil => simp [check_flow_id_in_use] at h
  | cons a rest ih =>
    simp only [check_flow_id_in_use] at h
    by_cases hax : a = x
    · have hxny : x ≠ y := fun hh => hxy hh.symm
      subst hax
      simp [retire_flow_id_instance, hxny, check_flow_id_in_use]
    · simp only [hax, if_false] at h
      by_cases hay : a = y
      · simpa [retire_flow_id_instance, hay] using h
      · simp [retire_flow_id_instance, hay, check_flow_id_in_use, hax, ih h]

lemma check_flow_id_in_use_ops (reg : List Nat) (x : Nat) (ops : List FlowIdOp)
    (hops : ∀ op ∈ ops, op ≠ FlowIdOp.release x)
    (h : check_flow_id_in_use reg x = true) :
    check_flow_id_in_use (applyFlowIdOps reg ops) x = true := by
  induction ops generalizing reg with
  | nil => simpa [applyFlowIdOps]
  | cons op rest ih =>
    have hop := hops op (List.mem_cons_self op rest)
    have hrest : ∀ o ∈ rest, o ≠ FlowIdOp.release x :=
      fun o ho => hops o (List.mem_cons_of_mem op ho)
    simp only [applyFlowIdOps, List.foldl_cons]
    apply ih _ hrest
    cases op with
    | claim y => exact check_flow_id_in_use_claim reg x y h
    | release y =>
      have hyx : y ≠ x := fun hy => hop (by rw [hy])
      exact check_flow_id_in_use_release reg x y hyx h

/-- C7: `gst_roq_flow_id_manager_new_flow_id` inserts a flow id and returns
true if and only if that flow id is absent from the registry; consequently,
after a successful claim of `x` followed by any sequence of claims and
releases that never releases `x`, a later claim of `x` (from any caller)
returns false — so at most one holder has a given flow id claimed at a
time. -/
theorem flow_id_claim_unique :
    (∀ reg flow_id, ((new_flow_id_instance reg flow_id).1 = true ↔
        check_flow_id_in_use reg flow_id = false) ∧
      (check_flow_id_in_use reg flow_id = false →
        (new_flow_id_instance reg flow_id).2 = reg ++ [flow_id]) ∧
      (check_flow_id_in_use reg flow_id = true →
        (new_flow_id_instance reg flow_id).2 = reg)) ∧
    (∀ reg x ops, (new_flow_id_instance reg x).1 = true →
      (∀ op ∈ ops, op ≠ FlowIdOp.release x) →
      (new_flow_id_instance
        (applyFlowIdOps (new_flow_id_instance reg x).2 ops) x).1 = false) := by
  constructor
  · intro reg flow_id
    refine ⟨?_, ?_, ?_⟩
    · unfold new_flow_id_instance
      by_cases h : check_flow_id_in_use reg flow_id <;> simp [h]
    · intro h; simp [new_flow_id_instance, h]
    · intro h; simp [new_flow_id_instance, h]
  · intro reg x ops hclaim hops
    have hpresent : check_flow_id_in_use (new_flow_id_instance reg x).2 x = true := by
      unfold new_flow_id_instance at hclaim ⊢
      by_cases h : check_flow_id_in_use reg x
      · simp [h] at hclaim
      · simp only [h, Bool.false_eq_true, if_false]
        exact check_flow_id_in_use_append_self reg x
    have hstill := check_flow_id_in_use_ops _ x ops hops hpresent
    exact new_flow_id_fst_of_in_use _ _ hstill

/-- Witness for C7 at concrete inputs: claiming 7 into registry `[3]`
succeeds, and after further claiming 9 and releasing 3 (no release of 7),
a second claim of 7 fails. -/
theorem flow_id_claim_unique_witness :
    (new_flow_id_instance [3] 7).1 = true ∧
    (∀ op ∈ [FlowIdOp.claim 9, FlowIdOp.release 3], op ≠ FlowIdOp.release 7) ∧
    (new_flow_id_instance
      (applyFlowIdOps (new_flow_id_instance [3] 7).2
        [FlowIdOp.claim 9, FlowIdOp.release 3]) 7).1 = false :=
  ⟨by decide, by decide,
    flow_id_claim_unique.2 [3] 7 [FlowIdOp.claim 9, FlowIdOp.release 3]
      (by decide) (by decide)⟩

/-! ## Muxer (`gstrtpquicmux.c`)

The embedding below follows `gst_rtp_quic_mux_rtp_chain`.  GStreamer pads are
identifiers drawn from the element's `pad_n` counter (the C code uses
`roqmux->pad_n++` to name each new unidirectional stream pad).  The
per-(SSRC, payload type) `RtpQuicMuxStream` state that the C code looks up or
creates in `roqmux->ssrcs` from the sink pad's caps is passed to the chain
function explicitly.  The downstream `gst_pad_push` result is an input, since
the QUIC transport is an external collaborator. -/

/-- Embeds the `GstRtpQuicMuxStreamBoundary` enum. -/
inductive GstRtpQuicMuxStreamBoundary where
  | frame
  | gop
  | single_stream
deriving DecidableEq, Repr

/-- Embeds `RtpQuicMuxStream` (per-(SSRC, PT) sender stream state): the open
stream pad or `none`, the byte offset within the stream, the packing counter
and the STOP_SENDING cancellation flag. -/
structure RtpQuicMuxStream where
  stream_pad : Option Nat
  stream_offset : Nat
  counter : Nat
  frame_cancelled : Bool
deriving DecidableEq, Repr

/-- Embeds the `GstRtpQuicMux` element fields used by the RTP chain and the
property setters.  `stream_packing` is the C field `stream_packing_ratio`
(property "stream-packing").  `datagram_pad` only matters as present/absent. -/
structure GstRtpQuicMux where
  rtp_flow_id : Int
  rtcp_flow_id : Int
  stream_boundary : GstRtpQuicMuxStreamBoundary
  stream_packing : Nat
  uni_stream_type : Nat
  use_datagrams : Bool
  add_uni_stream_header : Bool
  datagram_pad : Option Unit
  pad_n : Nat
deriving DecidableEq, Repr

/-- Embeds `rtp_quic_mux_write_payload_header`: prepends, in order, a varint
for `stream_type` when it is non-negative, a varint for `flow_id` when it is
non-negative, and a varint holding the payload length when `length` is set. -/
def rtp_quic_mux_write_payload_header (buf : List Nat) (stream_type flow_id : Int)
    (length : Bool) : List Nat :=
  (if 0 ≤ stream_type then gst_quiclib_set_varint stream_type.toNat else []) ++
  (if 0 ≤ flow_id then gst_quiclib_set_varint flow_id.toNat else []) ++
  (if length then gst_quiclib_set_varint buf.length else []) ++
  buf

/-- An RTP buffer arriving on a muxer sink pad: its bytes and the
`GST_BUFFER_FLAG_MARKER` / `GST_BUFFER_FLAG_DELTA_UNIT` flags. -/
structure RtpPacket where
  bytes : List Nat
  marker : Bool
  delta_unit : Bool
deriving DecidableEq, Repr

/-- The `GstFlowReturn` values distinguished by the muxer's RTP chain:
`GST_FLOW_OK`, `GST_FLOW_NOT_NEGOTIATED`, `GST_FLOW_ERROR`, and the custom
`GST_FLOW_QUIC_STREAM_CLOSED` / `GST_FLOW_QUIC_BLOCKED` codes. -/
inductive GstFlowRet where
  | ok
  | notNegotiated
  | error
  | quicStreamClosed
  | quicBlocked
deriving DecidableEq, Repr

/-- What the muxer pushed downstream: a buffer on a unidirectional stream pad
(with the byte offset it set in `buf->offset`), or a datagram. -/
inductive MuxEmit where
  | stream (pad : Nat) (offset : Nat) (bytes : List Nat)
  | datagram (bytes : List Nat)
deriving DecidableEq, Repr

/-- Result of one call to the muxer's RTP chain. -/
structure MuxChainResult where
  ret : GstFlowRet
  roqmux : GstRtpQuicMux
  stream : RtpQuicMuxStream
  emitted : Option MuxEmit
deriving DecidableEq, Repr

/-- Embeds the `if (stream->stream_pad == NULL)` block of
`gst_rtp_quic_mux_rtp_chain`: open a new unidirectional stream pad (named
from `roqmux->pad_n++`) and reset the stream offset to 0. -/
def rtp_quic_mux_ensure_stream_pad (roqmux : GstRtpQuicMux)
    (stream : RtpQuicMuxStream) : GstRtpQuicMux × RtpQuicMuxStream :=
  match stream.stream_pad with
  | none =>
    ({ roqmux with pad_n := roqmux.pad_n + 1 },
     { stream with stream_pad := some roqmux.pad_n, stream_offset := 0 })
  | some _ => (roqmux, stream)

/-- Embeds the stream-boundary handling of `gst_rtp_quic_mux_rtp_chain` that
runs before the push: FRAME increments the counter on a MARKER buffer; GOP,
on a buffer without the DELTA_UNIT flag, increments the counter and, when it
exceeds the packing ratio, closes the current pad and opens a fresh one. -/
def rtp_quic_mux_boundary_pre (roqmux : GstRtpQuicMux) (stream : RtpQuicMuxStream)
    (buf : RtpPacket) : GstRtpQuicMux × RtpQuicMuxStream :=
  if roqmux.stream_boundary = .frame ∧ buf.marker = true then
    (roqmux, { stream with counter := stream.counter + 1 })
  else if roqmux.stream_boundary = .gop ∧ buf.delta_unit = false then
    -- `++stream->counter > roqmux->stream_packing_ratio`
    if stream.counter + 1 > roqmux.stream_packing then
      ({ roqmux with pad_n := roqmux.pad_n + 1 },
       { stream with stream_pad := some roqmux.pad_n, stream_offset := 0,
                     counter := 0 })
    else (roqmux, { stream with counter := stream.counter + 1 })
  else (roqmux, stream)

/-- Embeds the header-assembly step of `gst_rtp_quic_mux_rtp_chain`: at
stream offset 0 the payload header carries the optional uni-stream type, the
RTP flow id and the length; otherwise only the length. -/
def rtp_quic_mux_stream_header (roqmux : GstRtpQuicMux) (stream : RtpQuicMuxStream)
    (payload : List Nat) : List Nat :=
  if stream.stream_offset = 0 then
    rtp_quic_mux_write_payload_header payload
      (if roqmux.add_uni_stream_header then (roqmux.uni_stream_type : Int) else -1)
      roqmux.rtp_flow_id true
  else
    rtp_quic_mux_write_payload_header payload (-1) (-1) true

/-- Embeds the FRAME-boundary check of `gst_rtp_quic_mux_rtp_chain` that runs
after the push: `++stream->counter >= roqmux->stream_packing_ratio` increments
the counter unconditionally in FRAME mode and, when the bound is reached,
deactivates and removes the stream pad and resets the counter. -/
def rtp_quic_mux_frame_post (roqmux : GstRtpQuicMux) (stream : RtpQuicMuxStream) :
    RtpQuicMuxStream :=
  if roqmux.stream_boundary = .frame then
    -- `++stream->counter >= roqmux->stream_packing_ratio`
    if stream.counter + 1 ≥ roqmux.stream_packing then
      { stream with stream_pad := none, counter := 0 }
    else { stream with counter := stream.counter + 1 }
  else stream

/-- Embeds the `GST_FLOW_QUIC_STREAM_CLOSED` handler of
`gst_rtp_quic_mux_rtp_chain` (STOP_SENDING received): set `frame_cancelled`,
drop the stream pad, reset the counter and turn the return value into
`GST_FLOW_OK`. -/
def rtp_quic_mux_stream_closed_post (rv : GstFlowRet) (stream : RtpQuicMuxStream) :
    GstFlowRet × RtpQuicMuxStream :=
  if rv = .quicStreamClosed then
    (GstFlowRet.ok,
     { stream with frame_cancelled := true, stream_pad := none, counter := 0 })
  else (rv, stream)

/-- Embeds the tail of the non-datagram path of `gst_rtp_quic_mux_rtp_chain`:
take the target pad (returning `GST_FLOW_NOT_NEGOTIATED` when there is none),
record `buf->offset = stream->stream_offset`, advance the stream offset by the
pushed length, run the post-push FRAME-boundary check and the
`GST_FLOW_QUIC_STREAM_CLOSED` handler on the push result. -/
def rtp_quic_mux_chain_emit (roqmux : GstRtpQuicMux) (s2 : RtpQuicMuxStream)
    (outbytes : List Nat) (push_result : GstFlowRet) : MuxChainResult :=
  match s2.stream_pad with
  | none =>
    { ret := .notNegotiated, roqmux := roqmux, stream := s2, emitted := none }
  | some pad =>
    let pushed := { s2 with stream_offset := s2.stream_offset + outbytes.length }
    let posted := rtp_quic_mux_frame_post roqmux pushed
    let rs := rtp_quic_mux_stream_closed_post push_result posted
    { ret := rs.1, roqmux := roqmux, stream := rs.2,
      emitted := some (.stream pad s2.stream_offset outbytes) }

/-- Embeds `gst_rtp_quic_mux_rtp_chain`.  `push_result` is the value returned
by `gst_pad_push` on the target pad.  In the datagram branch the
`g_assert (!roqmux->use_datagrams)` inside the `GST_FLOW_QUIC_STREAM_CLOSED`
handler would abort the process; that dead case is modelled as a fatal
`error` return. -/
def gst_rtp_quic_mux_rtp_chain (roqmux : GstRtpQuicMux) (stream : RtpQuicMuxStream)
    (buf : RtpPacket) (push_result : GstFlowRet) : MuxChainResult :=
  if roqmux.use_datagrams = false then
    -- frame_cancelled: drop until the next buffer with the MARKER flag
    if stream.frame_cancelled = true ∧ buf.marker = false then
      { ret := .ok, roqmux := roqmux, stream := stream, emitted := none }
    else
      let stream :=
        if stream.frame_cancelled then { stream with frame_cancelled := false }
        else stream
      let s1 := rtp_quic_mux_ensure_stream_pad roqmux stream
      let s2 := rtp_quic_mux_boundary_pre s1.1 s1.2 buf
      let outbytes := rtp_quic_mux_stream_header s2.1 s2.2 buf.bytes
      rtp_quic_mux_chain_emit s2.1 s2.2 outbytes push_result
  else
    -- datagram branch
    let roqmux :=
      if roqmux.datagram_pad.isNone then { roqmux with datagram_pad := some () }
      else roqmux
    let outbytes := rtp_quic_mux_write_payload_header buf.bytes (-1) roqmux.rtp_flow_id false
    let rv :=
      if push_result = .quicStreamClosed then GstFlowRet.error else push_result
    { ret := rv, roqmux := roqmux, stream := stream,
      emitted := some (.datagram outbytes) }

/-- The configuration error raised when `use-datagram` and
`use-uni-stream-hdr` conflict ("Cannot have both use-datagrams and
use-uni-stream-hdr set"). -/
inductive RoqMuxConfigError where
  | invalidConfig
deriving DecidableEq, Repr

/-- Embeds the `PROP_USE_DATAGRAM` case of `gst_rtp_quic_mux_set_property`.
The `g_error` taken when `add_uni_stream_header` is already set is modelled
as an `invalidConfig` error outcome that leaves the element unchanged. -/
def gst_rtp_quic_mux_set_use_datagram (roqmux : GstRtpQuicMux) (v : Bool) :
    Option RoqMuxConfigError × GstRtpQuicMux :=
  if roqmux.add_uni_stream_header then
    (some .invalidConfig, roqmux)
  else
    (none, { roqmux with use_datagrams := v })

/-- Embeds the `PROP_USE_UNI_STREAM_HEADER` case of
`gst_rtp_quic_mux_set_property`, with `g_error` modelled as for
`gst_rtp_quic_mux_set_use_datagram`. -/
def gst_rtp_quic_mux_set_use_uni_stream_header (roqmux : GstRtpQuicMux) (v : Bool) :
    Option RoqMuxConfigError × GstRtpQuicMux :=
  if roqmux.use_datagrams then
    (some .invalidConfig, roqmux)
  else
    (none, { roqmux with add_uni_stream_header := v })

/-- C1: in FRAME-boundary stream mode the code increments the per-stream
counter after every pushed packet (`++stream->counter` in the post-push
check), not only on MARKER packets, so with stream_packing_ratio = 2 a
single MARKER packet already drives the counter from 0 to 2 and closes the
stream, and a non-MARKER packet alone raises the counter to 1.  This
evaluation exhibits both effects of the unconditional post-push increment. -/
theorem frame_counter_post_push_increment :
    ((gst_rtp_quic_mux_rtp_chain
      ({ rtp_flow_id := 5, rtcp_flow_id := 6, stream_boundary := .frame,
         stream_packing := 2, uni_stream_type := 0, use_datagrams := false,
         add_uni_stream_header := false, datagram_pad := none,
         pad_n := 0 } : GstRtpQuicMux)
      ({ stream_pad := none, stream_offset := 0, counter := 0,
         frame_cancelled := false } : RtpQuicMuxStream)
      ({ bytes := [1, 2, 3], marker := false, delta_unit := true } : RtpPacket)
      GstFlowRet.ok).stream.counter = 1) ∧
    ((gst_rtp_quic_mux_rtp_chain
      ({ rtp_flow_id := 5, rtcp_flow_id := 6, stream_boundary := .frame,
         stream_packing := 2, uni_stream_type := 0, use_datagrams := false,
         add_uni_stream_header := false, datagram_pad := none,
         pad_n := 0 } : GstRtpQuicMux)
      ({ stream_pad := none, stream_offset := 0, counter := 0,
         frame_cancelled := false } : RtpQuicMuxStream)
      ({ bytes := [1, 2, 3], marker := true, delta_unit := false } : RtpPacket)
      GstFlowRet.ok).stream.stream_pad = none) := by
  decide

/-- C9: on a muxer that already has `use-uni-stream-hdr` set, any attempt to
set `use-datagram` is refused with the `invalidConfig` error and leaves the
element unchanged, and symmetrically for setting `use-uni-stream-hdr` on a
muxer that already has `use-datagram` set. -/
theorem datagram_uni_hdr_mutually_exclusive (roqmux : GstRtpQuicMux) (v : Bool) :
    (roqmux.add_uni_stream_header = true →
      gst_rtp_quic_mux_set_use_datagram roqmux v =
        (some RoqMuxConfigError.invalidConfig, roqmux)) ∧
    (roqmux.use_datagrams = true →
      gst_rtp_quic_mux_set_use_uni_stream_header roqmux v =
        (some RoqMuxConfigError.invalidConfig, roqmux)) := by
  constructor <;> intro h <;>
    simp [gst_rtp_quic_mux_set_use_datagram,
      gst_rtp_quic_mux_set_use_uni_stream_header, h]

/-- Witness for C9: a muxer with `use-uni-stream-hdr` set refuses
`use-datagram := true`, and a muxer with `use-datagram` set refuses
`use-uni-stream-hdr := true`. -/
theorem datagram_uni_hdr_mutually_exclusive_witness :
    (({ rtp_flow_id := 5, rtcp_flow_id := 6, stream_boundary := .single_stream,
        stream_packing := 1, uni_stream_type := 0, use_datagrams := false,
        add_uni_stream_header := true, datagram_pad := none,
        pad_n := 0 } : GstRtpQuicMux).add_uni_stream_header = true) ∧
    (gst_rtp_quic_mux_set_use_datagram
      ({ rtp_flow_id := 5, rtcp_flow_id := 6, stream_boundary := .single_stream,
         stream_packing := 1, uni_stream_type := 0, use_datagrams := false,
         add_uni_stream_header := true, datagram_pad := none,
         pad_n := 0 } : GstRtpQuicMux) true =
      (some RoqMuxConfigError.invalidConfig,
       ({ rtp_flow_id := 5, rtcp_flow_id := 6, stream_boundary := .single_stream,
          stream_packing := 1, uni_stream_type := 0, use_datagrams := false,
          add_uni_stream_header := true, datagram_pad := none,
          pad_n := 0 } : GstRtpQuicMux))) :=
  ⟨by decide,
   (datagram_uni_hdr_mutually_exclusive
     ({ rtp_flow_id := 5, rtcp_flow_id := 6, stream_boundary := .single_stream,
        stream_packing := 1, uni_stream_type := 0, use_datagrams := false,
        add_uni_stream_header := true, datagram_pad := none,
        pad_n := 0 } : GstRtpQuicMux) true).1 (by decide)⟩

lemma rtp_quic_mux_frame_post_cancelled (r : GstRtpQuicMux)
    (s : RtpQuicMuxStream) :
    (rtp_quic_mux_frame_post r s).frame_cancelled = s.frame_cancelled := by
  unfold rtp_quic_mux_frame_post
  split
  · split <;> rfl
  · rfl

lemma rtp_quic_mux_ensure_stream_pad_isSome (r : GstRtpQuicMux)
    (s : RtpQuicMuxStream) :
    (rtp_quic_mux_ensure_stream_pad r s).2.stream_pad.isSome = true := by
  unfold rtp_quic_mux_ensure_stream_pad
  cases h : s.stream_pad <;> simp [h]

lemma rtp_quic_mux_boundary_pre_isSome (r : GstRtpQuicMux) (s : RtpQuicMuxStream)
    (buf : RtpPacket) (h : s.stream_pad.isSome = true) :
    (rtp_quic_mux_boundary_pre r s buf).2.stream_pad.isSome = true := by
  unfold rtp_quic_mux_boundary_pre
  split
  · simpa using h
  · split
    · split
      · simp
      · simpa using h
    · simpa using h

lemma rtp_quic_mux_chain_emit_stream_closed (r : GstRtpQuicMux)
    (s2 : RtpQuicMuxStream) (outbytes : List Nat)
    (h : s2.stream_pad.isSome = true) :
    (rtp_quic_mux_chain_emit r s2 outbytes GstFlowRet.quicStreamClosed).ret =
      GstFlowRet.ok ∧
    (rtp_quic_mux_chain_emit r s2 outbytes
      GstFlowRet.quicStreamClosed).stream.frame_cancelled = true ∧
    (rtp_quic_mux_chain_emit r s2 outbytes
      GstFlowRet.quicStreamClosed).stream.stream_pad = none ∧
    (rtp_quic_mux_chain_emit r s2 outbytes
      GstFlowRet.quicStreamClosed).stream.counter = 0 := by
  obtain ⟨p, hp⟩ := Option.isSome_iff_exists.mp h
  unfold rtp_quic_mux_chain_emit
  rw [hp]
  simp [rtp_quic_mux_stream_closed_post]

lemma rtp_quic_mux_chain_emit_emitted (r : GstRtpQuicMux)
    (s2 : RtpQuicMuxStream) (outbytes : List Nat) (push_result : GstFlowRet)
    (p : Nat) (h : s2.stream_pad = some p) :
    (rtp_quic_mux_chain_emit r s2 outbytes push_result).emitted =
      some (MuxEmit.stream p s2.stream_offset outbytes) ∧
    (push_result = GstFlowRet.ok →
      (rtp_quic_mux_chain_emit r s2 outbytes
        push_result).stream.frame_cancelled = s2.frame_cancelled) := by
  unfold rtp_quic_mux_chain_emit
  rw [h]
  constructor
  · rfl
  · intro hok
    rw [hok]
    simp [rtp_quic_mux_stream_closed_post, rtp_quic_mux_frame_post_cancelled]

lemma rtp_quic_mux_chain_emit_emitted_inv (r : GstRtpQuicMux)
    (s2 : RtpQuicMuxStream) (outbytes : List Nat) (push_result : GstFlowRet)
    (pad off : Nat) (bytes : List Nat)
    (h : (rtp_quic_mux_chain_emit r s2 outbytes push_result).emitted =
      some (MuxEmit.stream pad off bytes)) :
    off = s2.stream_offset ∧ bytes = outbytes := by
  unfold rtp_quic_mux_chain_emit at h
  cases hp : s2.stream_pad with
  | none => rw [hp] at h; simp at h
  | some q =>
    rw [hp] at h
    simp only [Option.some.injEq, MuxEmit.stream.injEq] at h
    exact ⟨h.2.1.symm, h.2.2.symm⟩

lemma rtp_quic_mux_ensure_stream_pad_config (r : GstRtpQuicMux)
    (s : RtpQuicMuxStream) :
    (rtp_quic_mux_ensure_stream_pad r s).1.add_uni_stream_header =
      r.add_uni_stream_header ∧
    (rtp_quic_mux_ensure_stream_pad r s).1.rtp_flow_id = r.rtp_flow_id ∧
    (rtp_quic_mux_ensure_stream_pad r s).1.uni_stream_type = r.uni_stream_type := by
  unfold rtp_quic_mux_ensure_stream_pad
  cases s.stream_pad <;> simp

lemma rtp_quic_mux_boundary_pre_config (r : GstRtpQuicMux)
    (s : RtpQuicMuxStream) (buf : RtpPacket) :
    (rtp_quic_mux_boundary_pre r s buf).1.add_uni_stream_header =
      r.add_uni_stream_header ∧
    (rtp_quic_mux_boundary_pre r s buf).1.rtp_flow_id = r.rtp_flow_id ∧
    (rtp_quic_mux_boundary_pre r s buf).1.uni_stream_type = r.uni_stream_type := by
  unfold rtp_quic_mux_boundary_pre
  split
  · simp
  · split
    · split <;> simp
    · simp

lemma rtp_quic_mux_stream_header_shape (r : GstRtpQuicMux) (s : RtpQuicMuxStream)
    (payload : List Nat) (hflow : 0 ≤ r.rtp_flow_id) :
    (s.stream_offset = 0 → rtp_quic_mux_stream_header r s payload =
      (if r.add_uni_stream_header then
        gst_quiclib_set_varint r.uni_stream_type else []) ++
      gst_quiclib_set_varint r.rtp_flow_id.toNat ++
      gst_quiclib_set_varint payload.length ++ payload) ∧
    (s.stream_offset ≠ 0 → rtp_quic_mux_stream_header r s payload =
      gst_quiclib_set_varint payload.length ++ payload) := by
  constructor
  · intro h0
    unfold rtp_quic_mux_stream_header rtp_quic_mux_write_payload_header
    rw [if_pos h0]
    by_cases huni : r.add_uni_stream_header <;> simp [huni, hflow]
  · intro hne
    unfold rtp_quic_mux_stream_header rtp_quic_mux_write_payload_header
    rw [if_neg hne]
    simp [show ¬((0:Int) ≤ -1) by decide]

/-- C4: in stream mode every buffer the RTP chain pushes at stream offset 0
is prefixed by the optional uni-stream-type varint, then the flow-id varint,
then the length varint; every buffer pushed at a non-zero offset is prefixed
by its length varint only — so the flow id is written exactly once, at the
very start of each QUIC stream. -/
theorem stream_header_written_exactly_once (roqmux : GstRtpQuicMux)
    (stream : RtpQuicMuxStream) (buf : RtpPacket) (push_result : GstFlowRet)
    (pad off : Nat) (bytes : List Nat)
    (hdg : roqmux.use_datagrams = false)
    (hflow : 0 ≤ roqmux.rtp_flow_id)
    (hemit : (gst_rtp_quic_mux_rtp_chain roqmux stream buf push_result).emitted =
      some (MuxEmit.stream pad off bytes)) :
    (off = 0 → bytes =
      (if roqmux.add_uni_stream_header then
        gst_quiclib_set_varint roqmux.uni_stream_type else []) ++
      gst_quiclib_set_varint roqmux.rtp_flow_id.toNat ++
      gst_quiclib_set_varint buf.bytes.length ++ buf.bytes) ∧
    (0 < off → bytes = gst_quiclib_set_varint buf.bytes.length ++ buf.bytes) := by
  unfold gst_rtp_quic_mux_rtp_chain at hemit
  rw [if_pos hdg] at hemit
  split at hemit
  · exact absurd hemit (by simp)
  · obtain ⟨hoff, hbytes⟩ :=
      rtp_quic_mux_chain_emit_emitted_inv _ _ _ _ _ _ _ hemit
    subst hbytes
    subst hoff
    constructor
    · intro h0
      rw [(rtp_quic_mux_stream_header_shape _ _ _ ?_).1 h0]
      · rw [(rtp_quic_mux_boundary_pre_config _ _ _).1,
          (rtp_quic_mux_ensure_stream_pad_config _ _).1,
          (rtp_quic_mux_boundary_pre_config _ _ _).2.1,
          (rtp_quic_mux_ensure_stream_pad_config _ _).2.1,
          (rtp_quic_mux_boundary_pre_config _ _ _).2.2,
          (rtp_quic_mux_ensure_stream_pad_config _ _).2.2]
      · rw [(rtp_quic_mux_boundary_pre_config _ _ _).2.1,
          (rtp_quic_mux_ensure_stream_pad_config _ _).2.1]
        exact hflow
    · intro hpos
      rw [(rtp_quic_mux_stream_header_shape _ _ _ ?_).2 (by omega)]
      rw [(rtp_quic_mux_boundary_pre_config _ _ _).2.1,
        (rtp_quic_mux_ensure_stream_pad_config _ _).2.1]
      exact hflow


/-- C5: in stream mode, (a) if the push returns `GST_FLOW_QUIC_STREAM_CLOSED`
(the peer sent STOP_SENDING), the chain sets `frame_cancelled`, drops the
stream pad, resets the counter and returns `GST_FLOW_OK`; (b) while
`frame_cancelled` is set, a buffer without the MARKER flag is dropped and the
state is untouched; (c) the first buffer carrying the MARKER flag clears
`frame_cancelled` and is pushed at offset 0 on a freshly opened stream pad. -/
theorem stop_sending_cancels_and_resumes (roqmux : GstRtpQuicMux)
    (stream : RtpQuicMuxStream) (buf : RtpPacket) (push_result : GstFlowRet)
    (hdg : roqmux.use_datagrams = false) :
    (push_result = GstFlowRet.quicStreamClosed →
      ¬(stream.frame_cancelled = true ∧ buf.marker = false) →
      ((gst_rtp_quic_mux_rtp_chain roqmux stream buf push_result).ret =
        GstFlowRet.ok ∧
       (gst_rtp_quic_mux_rtp_chain roqmux stream buf
         push_result).stream.frame_cancelled = true ∧
       (gst_rtp_quic_mux_rtp_chain roqmux stream buf
         push_result).stream.stream_pad = none ∧
       (gst_rtp_quic_mux_rtp_chain roqmux stream buf
         push_result).stream.counter = 0)) ∧
    (stream.frame_cancelled = true → buf.marker = false →
      gst_rtp_quic_mux_rtp_chain roqmux stream buf push_result =
        { ret := GstFlowRet.ok, roqmux := roqmux, stream := stream,
          emitted := none }) ∧
    (stream.frame_cancelled = true → buf.marker = true →
      stream.stream_pad = none →
      ((∃ p bytes,
        (gst_rtp_quic_mux_rtp_chain roqmux stream buf push_result).emitted =
          some (MuxEmit.stream p 0 bytes) ∧ roqmux.pad_n ≤ p) ∧
       (push_result = GstFlowRet.ok →
        (gst_rtp_quic_mux_rtp_chain roqmux stream buf
          push_result).stream.frame_cancelled = false))) := by
  refine ⟨?_, ?_, ?_⟩
  · intro hpr hnd
    rw [hpr]
    unfold gst_rtp_quic_mux_rtp_chain
    rw [if_pos hdg]
    split
    · exact absurd (by assumption) hnd
    · exact rtp_quic_mux_chain_emit_stream_closed _ _ _
        (rtp_quic_mux_boundary_pre_isSome _ _ _
          (rtp_quic_mux_ensure_stream_pad_isSome _ _))
  · intro hfc hmk
    unfold gst_rtp_quic_mux_rtp_chain
    rw [if_pos hdg, if_pos ⟨hfc, hmk⟩]
  · intro hfc hmk hpad
    unfold gst_rtp_quic_mux_rtp_chain
    rw [if_pos hdg, if_neg (by simp [hmk]), if_pos hfc]
    have hens : rtp_quic_mux_ensure_stream_pad roqmux
        { stream with frame_cancelled := false } =
        ({ roqmux with pad_n := roqmux.pad_n + 1 },
         { stream with frame_cancelled := false,
                       stream_pad := some roqmux.pad_n, stream_offset := 0 }) := by
      unfold rtp_quic_mux_ensure_stream_pad
      rw [show ({ stream with frame_cancelled := false} :
        RtpQuicMuxStream).stream_pad = stream.stream_pad from rfl, hpad]
    simp only [hens]
    unfold rtp_quic_mux_boundary_pre
    split
    · refine ⟨⟨roqmux.pad_n, _,
        (rtp_quic_mux_chain_emit_emitted _ _ _ push_result roqmux.pad_n rfl).1,
        Nat.le_refl _⟩, ?_⟩
      intro hok
      rw [(rtp_quic_mux_chain_emit_emitted _ _ _ push_result roqmux.pad_n
        rfl).2 hok]
    · split
      · split
        · refine ⟨⟨roqmux.pad_n + 1, _,
            (rtp_quic_mux_chain_emit_emitted _ _ _ push_result (roqmux.pad_n + 1)
              rfl).1, by omega⟩, ?_⟩
          intro hok
          rw [(rtp_quic_mux_chain_emit_emitted _ _ _ push_result
            (roqmux.pad_n + 1) rfl).2 hok]
        · refine ⟨⟨roqmux.pad_n, _,
            (rtp_quic_mux_chain_emit_emitted _ _ _ push_result roqmux.pad_n
              rfl).1, Nat.le_refl _⟩, ?_⟩
          intro hok
          rw [(rtp_quic_mux_chain_emit_emitted _ _ _ push_result roqmux.pad_n
            rfl).2 hok]
      · refine ⟨⟨roqmux.pad_n, _,
          (rtp_quic_mux_chain_emit_emitted _ _ _ push_result roqmux.pad_n
            rfl).1, Nat.le_refl _⟩, ?_⟩
        intro hok
        rw [(rtp_quic_mux_chain_emit_emitted _ _ _ push_result roqmux.pad_n
          rfl).2 hok]

/-- Witness for C4: a fresh stream state with flow id 5 and a 2-byte payload
is emitted at offset 0 as flow-id varint, length varint, payload. -/
theorem stream_header_written_exactly_once_witness :
    ((gst_rtp_quic_mux_rtp_chain
      ({ rtp_flow_id := 5, rtcp_flow_id := 6, stream_boundary := .single_stream,
         stream_packing := 1, uni_stream_type := 0, use_datagrams := false,
         add_uni_stream_header := false, datagram_pad := none,
         pad_n := 0 } : GstRtpQuicMux)
      ({ stream_pad := none, stream_offset := 0, counter := 0,
         frame_cancelled := false } : RtpQuicMuxStream)
      ({ bytes := [9, 9], marker := true, delta_unit := false } : RtpPacket)
      GstFlowRet.ok).emitted = some (MuxEmit.stream 0 0 [5, 2, 9, 9])) ∧
    ([5, 2, 9, 9] =
      (if ({ rtp_flow_id := 5, rtcp_flow_id := 6,
             stream_boundary := .single_stream, stream_packing := 1,
             uni_stream_type := 0, use_datagrams := false,
             add_uni_stream_header := false, datagram_pad := none,
             pad_n := 0 } : GstRtpQuicMux).add_uni_stream_header then
        gst_quiclib_set_varint 0 else []) ++
      gst_quiclib_set_varint ((5 : Int)).toNat ++
      gst_quiclib_set_varint ([9, 9] : List Nat).length ++ [9, 9]) :=
  ⟨by decide,
   (stream_header_written_exactly_once
     ({ rtp_flow_id := 5, rtcp_flow_id := 6, stream_boundary := .single_stream,
        stream_packing := 1, uni_stream_type := 0, use_datagrams := false,
        add_uni_stream_header := false, datagram_pad := none,
        pad_n := 0 } : GstRtpQuicMux)
     ({ stream_pad := none, stream_offset := 0, counter := 0,
        frame_cancelled := false } : RtpQuicMuxStream)
     ({ bytes := [9, 9], marker := true, delta_unit := false } : RtpPacket)
     GstFlowRet.ok 0 0 [5, 2, 9, 9] (by decide) (by decide) (by decide)).1 rfl⟩

/-- Witness for C5 at concrete inputs: a StreamClosed push result cancels the
frame and returns OK; a non-MARKER buffer on a cancelled stream is dropped
unchanged; a MARKER buffer on a cancelled stream is emitted at offset 0 on a
fresh pad. -/
theorem stop_sending_cancels_and_resumes_witness :
    ((gst_rtp_quic_mux_rtp_chain
      ({ rtp_flow_id := 5, rtcp_flow_id := 6, stream_boundary := .frame,
         stream_packing := 2, uni_stream_type := 0, use_datagrams := false,
         add_uni_stream_header := false, datagram_pad := none,
         pad_n := 4 } : GstRtpQuicMux)
      ({ stream_pad := some 3, stream_offset := 10, counter := 0,
         frame_cancelled := false } : RtpQuicMuxStream)
      ({ bytes := [1], marker := false, delta_unit := true } : RtpPacket)
      GstFlowRet.quicStreamClosed).ret = GstFlowRet.ok ∧
     (gst_rtp_quic_mux_rtp_chain
      ({ rtp_flow_id := 5, rtcp_flow_id := 6, stream_boundary := .frame,
         stream_packing := 2, uni_stream_type := 0, use_datagrams := false,
         add_uni_stream_header := false, datagram_pad := none,
         pad_n := 4 } : GstRtpQuicMux)
      ({ stream_pad := some 3, stream_offset := 10, counter := 0,
         frame_cancelled := false } : RtpQuicMuxStream)
      ({ bytes := [1], marker := false, delta_unit := true } : RtpPacket)
      GstFlowRet.quicStreamClosed).stream.frame_cancelled = true ∧
     (gst_rtp_quic_mux_rtp_chain
      ({ rtp_flow_id := 5, rtcp_flow_id := 6, stream_boundary := .frame,
         stream_packing := 2, uni_stream_type := 0, use_datagrams := false,
         add_uni_stream_header := false, datagram_pad := none,
         pad_n := 4 } : GstRtpQuicMux)
      ({ stream_pad := some 3, stream_offset := 10, counter := 0,
         frame_cancelled := false } : RtpQuicMuxStream)
      ({ bytes := [1], marker := false, delta_unit := true } : RtpPacket)
      GstFlowRet.quicStreamClosed).stream.stream_pad = none ∧
     (gst_rtp_quic_mux_rtp_chain
      ({ rtp_flow_id := 5, rtcp_flow_id := 6, stream_boundary := .frame,
         stream_packing := 2, uni_stream_type := 0, use_datagrams := false,
         add_uni_stream_header := false, datagram_pad := none,
         pad_n := 4 } : GstRtpQuicMux)
      ({ stream_pad := some 3, stream_offset := 10, counter := 0,
         frame_cancelled := false } : RtpQuicMuxStream)
      ({ bytes := [1], marker := false, delta_unit := true } : RtpPacket)
      GstFlowRet.quicStreamClosed).stream.counter = 0) ∧
    (gst_rtp_quic_mux_rtp_chain
      ({ rtp_flow_id := 5, rtcp_flow_id := 6, stream_boundary := .frame,
         stream_packing := 2, uni_stream_type := 0, use_datagrams := false,
         add_uni_stream_header := false, datagram_pad := none,
         pad_n := 4 } : GstRtpQuicMux)
      ({ stream_pad := none, stream_offset := 0, counter := 0,
         frame_cancelled := true } : RtpQuicMuxStream)
      ({ bytes := [1], marker := false, delta_unit := true } : RtpPacket)
      GstFlowRet.ok =
      { ret := GstFlowRet.ok,
        roqmux :=
          ({ rtp_flow_id := 5, rtcp_flow_id := 6, stream_boundary := .frame,
             stream_packing := 2, uni_stream_type := 0, use_datagrams := false,
             add_uni_stream_header := false, datagram_pad := none,
             pad_n := 4 } : GstRtpQuicMux),
        stream :=
          ({ stream_pad := none, stream_offset := 0, counter := 0,
             frame_cancelled := true } : RtpQuicMuxStream),
        emitted := none }) ∧
    ((∃ p bytes,
      (gst_rtp_quic_mux_rtp_chain
        ({ rtp_flow_id := 5, rtcp_flow_id := 6, stream_boundary := .frame,
           stream_packing := 2, uni_stream_type := 0, use_datagrams := false,
           add_uni_stream_header := false, datagram_pad := none,
           pad_n := 4 } : GstRtpQuicMux)
        ({ stream_pad := none, stream_offset := 0, counter := 0,
           frame_cancelled := true } : RtpQuicMuxStream)
        ({ bytes := [1], marker := true, delta_unit := false } : RtpPacket)
        GstFlowRet.ok).emitted = some (MuxEmit.stream p 0 bytes) ∧ 4 ≤ p) ∧
     (GstFlowRet.ok = GstFlowRet.ok →
      (gst_rtp_quic_mux_rtp_chain
        ({ rtp_flow_id := 5, rtcp_flow_id := 6, stream_boundary := .frame,
           stream_packing := 2, uni_stream_type := 0, use_datagrams := false,
           add_uni_stream_header := false, datagram_pad := none,
           pad_n := 4 } : GstRtpQuicMux)
        ({ stream_pad := none, stream_offset := 0, counter := 0,
           frame_cancelled := true } : RtpQuicMuxStream)
        ({ bytes := [1], marker := true, delta_unit := false } : RtpPacket)
        GstFlowRet.ok).stream.frame_cancelled = false)) :=
  ⟨(stop_sending_cancels_and_resumes _ _ _ _ (by decide)).1 rfl (by decide),
   (stop_sending_cancels_and_resumes _ _ _ _ (by decide)).2.1 rfl rfl,
   (stop_sending_cancels_and_resumes _ _ _ _ (by decide)).2.2 rfl rfl rfl⟩

/-! ## Demuxer (`gstrtpquicdemux.c`)

Output pads are tagged with the template they were created from
(`rtp_sometimes_src_...` vs `rtcp_request_src_...`); pending request sinks
handed back by `rtp_quic_demux_match_pending_sink` take the tag of the getter
that bound them, which is what "routed to the RTP/RTCP output" observes.
Fresh pad identifiers are drawn from a `next_pad` counter. -/

/-- Which output template a demuxer source pad belongs to. -/
inductive PadKind where
  | rtp
  | rtcp
deriving DecidableEq, Repr

/-- The caps descriptors the demuxer builds or intersects when matching
pending request sinks: `application/x-rtp` (optionally with a fixed
`payload` field) and `application/x-rtcp`. -/
inductive SinkCaps where
  | rtp (payload : Option Nat)
  | rtcp
deriving DecidableEq, Repr

/-- Caps intersection for the descriptors above (`gst_caps_can_intersect`):
RTP caps intersect unless both fix different payload numbers; RTP and RTCP
caps never intersect. -/
def gst_caps_can_intersect : SinkCaps → SinkCaps → Bool
  | .rtp p1, .rtp p2 =>
    match p1, p2 with
    | some a, some b => a = b
    | _, _ => true
  | .rtcp, .rtcp => true
  | _, _ => false

/-- A pre-registered downstream request sink awaiting assignment
(an element of `roqdemux->pending_req_sinks`). -/
structure PendingSink where
  pad : Nat
  linked : Bool
  caps : SinkCaps
deriving DecidableEq, Repr

/-- Embeds `rtp_quic_demux_match_pending_sink`: scan the FIFO list of
pending request sinks, skip unlinked ones, return the first whose allowed
caps intersect `caps` and remove it from the list. -/
def rtp_quic_demux_match_pending_sink :
    List PendingSink → SinkCaps → Option Nat × List PendingSink
  | [], _ => (none, [])
  | s :: rest, caps =>
    if s.linked = false then
      let r := rtp_quic_demux_match_pending_sink rest caps
      (r.1, s :: r.2)
    else if gst_caps_can_intersect s.caps caps then
      (some s.pad, rest)
    else
      let r := rtp_quic_demux_match_pending_sink rest caps
      (r.1, s :: r.2)

/-- Embeds `RtpQuicDemuxSrc`: a routing-table entry holding the cached RTP
output pad (or none before first use) and the QoS clock offset. -/
structure RtpQuicDemuxSrc where
  src : Option Nat
  offset : Nat
deriving DecidableEq, Repr

/-- Embeds `RtpQuicDemuxStream`: per-QUIC-stream reassembly state with the
onward output pad, the parsed expected payload length and the reassembly
buffer (none when no packet is in progress). -/
structure RtpQuicDemuxStream where
  onward_src_pad : PadKind × Nat
  expected_payloadlen : Nat
  buf : Option (List Nat)
deriving DecidableEq, Repr

/-- Embeds the `GstRtpQuicDemux` element fields used by the chain, query and
routing functions.  `src_ssrcs` is the two-level SSRC → payload-type → entry
routing table; `src_ssrcs_rtcp` maps SSRC to an RTCP pad (the source only
ever reads this table: `rtp_quic_demux_get_rtcp_src_pad` allocates the key it
would insert but never inserts it). -/
structure GstRtpQuicDemux where
  rtp_flow_id : Int
  rtcp_flow_id : Int
  uni_stream_type : Nat
  match_uni_stream_type : Bool
  src_ssrcs : List (Nat × List (Nat × RtpQuicDemuxSrc))
  src_ssrcs_rtcp : List (Nat × Nat)
  quic_streams : List (Nat × RtpQuicDemuxStream)
  pending_req_sinks : List PendingSink
  next_pad : Nat
deriving DecidableEq, Repr

/-- Replace-or-append update of an association list, as `g_hash_table_insert`
behaves on a table without duplicate keys. -/
def alist_put {β : Type} : List (Nat × β) → Nat → β → List (Nat × β)
  | [], k, v => [(k, v)]
  | (k', v') :: rest, k, v =>
    if k' = k then (k, v) :: rest else (k', v') :: alist_put rest k v

/-- Removal from an association list (`g_hash_table_remove`). -/
def alist_remove {β : Type} : List (Nat × β) → Nat → List (Nat × β)
  | [], _ => []
  | (k', v') :: rest, k =>
    if k' = k then rest else (k', v') :: alist_remove rest k

/-- Embeds the `PROP_RTCP_FLOW_ID` case of `gst_rtp_quic_demux_set_property`:
store the value, and replace an unset (−1) value by `rtp_flow_id + 1` when
the RTP flow id is configured. -/
def gst_rtp_quic_demux_set_rtcp_flow_id (d : GstRtpQuicDemux) (v : Int) :
    GstRtpQuicDemux :=
  let d1 := { d with rtcp_flow_id := v }
  if d1.rtcp_flow_id = -1 ∧ d1.rtp_flow_id ≠ -1 then
    { d1 with rtcp_flow_id := d1.rtp_flow_id + 1 }
  else d1

/-- Embeds the `PROP_RTP_FLOW_ID` case of `gst_rtp_quic_demux_set_property`:
store the value and, when the RTCP flow id is still unset, `g_object_set`
`rtcp-flow-id` to `rtp_flow_id + 1`. -/
def gst_rtp_quic_demux_set_rtp_flow_id (d : GstRtpQuicDemux) (v : Int) :
    GstRtpQuicDemux :=
  let d1 := { d with rtp_flow_id := v }
  if d1.rtp_flow_id ≠ -1 ∧ d1.rtcp_flow_id = -1 then
    gst_rtp_quic_demux_set_rtcp_flow_id d1 (d1.rtp_flow_id + 1)
  else d1

/-- Embeds `rtp_quic_demux_get_rtp_src_pad`: mask the payload type to its low
7 bits, look up (creating on demand) the (SSRC, PT) routing entry, and when
it has no pad yet first try the pending-sink matcher with
`application/x-rtp, payload=<pt>` caps and otherwise create a fresh pad from
the `rtp_sometimes_src_%u_%u_%u` template. -/
def rtp_quic_demux_get_rtp_src_pad (d : GstRtpQuicDemux) (ssrc pt0 : Nat) :
    (PadKind × Nat) × GstRtpQuicDemux :=
  let pt := pt0 &&& 0x7f
  let pts_ht := (d.src_ssrcs.lookup ssrc).getD []
  let src := (pts_ht.lookup pt).getD { src := none, offset := 0 }
  match src.src with
  | some pad => ((PadKind.rtp, pad), d)
  | none =>
    let m := rtp_quic_demux_match_pending_sink d.pending_req_sinks
      (SinkCaps.rtp (some pt))
    match m.1 with
    | some sinkpad =>
      ((PadKind.rtp, sinkpad),
       { d with
           src_ssrcs := alist_put d.src_ssrcs ssrc
             (alist_put pts_ht pt { src with src := some sinkpad }),
           pending_req_sinks := m.2 })
    | none =>
      ((PadKind.rtp, d.next_pad),
       { d with
           src_ssrcs := alist_put d.src_ssrcs ssrc
             (alist_put pts_ht pt { src with src := some d.next_pad }),
           next_pad := d.next_pad + 1 })

/-- Embeds `rtp_quic_demux_get_rtcp_src_pad`: look the SSRC up in the RTCP
table; on a miss, try the pending-sink matcher with `application/x-rtcp` caps
and otherwise create a fresh pad from the `rtcp_request_src_%u_%u` template.
As in the source, nothing is ever inserted into the RTCP table. -/
def rtp_quic_demux_get_rtcp_src_pad (d : GstRtpQuicDemux) (ssrc : Nat) :
    (PadKind × Nat) × GstRtpQuicDemux :=
  match d.src_ssrcs_rtcp.lookup ssrc with
  | some pad => ((PadKind.rtcp, pad), d)
  | none =>
    let m := rtp_quic_demux_match_pending_sink d.pending_req_sinks SinkCaps.rtcp
    match m.1 with
    | some sinkpad =>
      ((PadKind.rtcp, sinkpad), { d with pending_req_sinks := m.2 })
    | none =>
      ((PadKind.rtcp, d.next_pad), { d with next_pad := d.next_pad + 1 })

/-- Embeds `rtp_quic_demux_get_src_pad`: select the RTP or RTCP output from
the observed flow id and, when the configured flow ids coincide and the flow
id matches neither branch, from `payload_type & 0x7f` (RFC 5761).  The
final branch (`return FALSE`) is the `none` case. -/
def rtp_quic_demux_get_src_pad (d : GstRtpQuicDemux) (flow_id ssrc pt : Nat) :
    Option (PadKind × Nat) × GstRtpQuicDemux :=
  if flow_id = guint64_of_gint64 d.rtp_flow_id ∧
      d.rtp_flow_id ≠ d.rtcp_flow_id then
    let r := rtp_quic_demux_get_rtp_src_pad d ssrc pt
    (some r.1, r.2)
  else if flow_id = guint64_of_gint64 d.rtcp_flow_id ∨
      (d.rtcp_flow_id = -1 ∧ d.rtp_flow_id ≠ -1 ∧
        flow_id = guint64_of_gint64 (d.rtp_flow_id + 1)) then
    let r := rtp_quic_demux_get_rtcp_src_pad d ssrc
    (some r.1, r.2)
  else if d.rtp_flow_id = d.rtcp_flow_id then
    if 64 ≤ (pt &&& 0x7f) ∧ (pt &&& 0x7f) ≤ 95 then
      let r := rtp_quic_demux_get_rtcp_src_pad d ssrc
      (some r.1, r.2)
    else
      let r := rtp_quic_demux_get_rtp_src_pad d ssrc pt
      (some r.1, r.2)
  else (none, d)

/-- The `GstFlowReturn` values the demuxer chain distinguishes. -/
inductive DemuxFlowRet where
  | ok
  | error
  | notLinked
deriving DecidableEq, Repr

/-- Result of one call to the demuxer chain: the flow return, the updated
element and what was pushed downstream (output pad and buffer bytes), with a
successful downstream push modelled as `ok`. -/
structure DemuxChainResult where
  ret : DemuxFlowRet
  roqdemux : GstRtpQuicDemux
  emitted : Option ((PadKind × Nat) × List Nat)
deriving DecidableEq, Repr

/-- Embeds the header parsing of `gst_rtp_quic_demux_chain` on a stream's
chunk when `stream_meta->offset == 0`: the optional uni-stream-type varint
(`GST_FLOW_ERROR` on mismatch), the flow-id varint with the auto-learn
`g_object_set` when `rtp_flow_id == -1`, and the flow check (`GST_FLOW_ERROR`
when the flow id matches neither configured id).  Returns the updated element
and the number of bytes consumed; `none` stands for the error returns (a
short buffer would be an out-of-bounds read in the C). -/
def rtp_quic_demux_parse_flow (d : GstRtpQuicDemux) (chunk : List Nat) :
    Option (GstRtpQuicDemux × Nat) :=
  match (if d.match_uni_stream_type then
          match gst_quiclib_get_varint chunk with
          | none => none
          | some (ust, l1) => if ust ≠ d.uni_stream_type then none else some l1
         else some 0) with
  | none => none
  | some l1 =>
    match gst_quiclib_get_varint (chunk.drop l1) with
    | none => none
    | some (flowid, l2) =>
      let d := if d.rtp_flow_id = -1 then
          gst_rtp_quic_demux_set_rtp_flow_id d (flowid : Int)
        else d
      if flowid ≠ guint64_of_gint64 d.rtp_flow_id ∧
          flowid ≠ guint64_of_gint64 d.rtcp_flow_id then none
      else some (d, l1 + l2)

/-- Embeds the `stream->buf == NULL` path of `gst_rtp_quic_demux_chain`:
parse the stream header when this is the stream's first chunk, then the
expected-payload-length varint, and start the reassembly buffer with the
remaining chunk bytes. -/
def rtp_quic_demux_parse_new_packet (d : GstRtpQuicDemux)
    (stream : RtpQuicDemuxStream) (meta_offset : Nat) (chunk : List Nat) :
    Option (GstRtpQuicDemux × RtpQuicDemuxStream) :=
  match (if meta_offset = 0 then rtp_quic_demux_parse_flow d chunk
         else some (d, 0)) with
  | none => none
  | some (d, varint_len) =>
    match gst_quiclib_get_varint (chunk.drop varint_len) with
    | none => none
    | some (explen, l3) =>
      some (d, { stream with expected_payloadlen := explen,
                             buf := some (chunk.drop (varint_len + l3)) })

/-- Embeds the stream-delivery path of `gst_rtp_quic_demux_chain`:
look up the reassembly state by stream id (`GST_FLOW_NOT_LINKED` when
missing), return early on a zero-length final chunk (the
`g_hash_table_remove` there is commented out in the source, so the state is
kept), start or extend the reassembly buffer, and, once the buffer has
reached the expected payload length or the chunk is final, push the
assembled packet on the onward pad, clearing the buffer and dropping the
stream state when the final bit is set. -/
def gst_rtp_quic_demux_chain_stream (d : GstRtpQuicDemux) (stream_id : Nat)
    (meta_offset : Nat) (final : Bool) (chunk : List Nat) : DemuxChainResult :=
  match d.quic_streams.lookup stream_id with
  | none => { ret := .notLinked, roqdemux := d, emitted := none }
  | some stream =>
    if chunk.length = 0 ∧ final = true then
      { ret := .ok, roqdemux := d, emitted := none }
    else
      match (match stream.buf with
             | some b0 => some (d, { stream with buf := some (b0 ++ chunk) })
             | none =>
               rtp_quic_demux_parse_new_packet d stream meta_offset chunk) with
      | none => { ret := .error, roqdemux := d, emitted := none }
      | some (d, stream) =>
        let asm := stream.buf.getD []
        if asm.length < stream.expected_payloadlen ∧ final = false then
          { ret := .ok,
            roqdemux := { d with
              quic_streams := alist_put d.quic_streams stream_id stream },
            emitted := none }
        else
          let d :=
            if final then
              { d with quic_streams := alist_remove d.quic_streams stream_id }
            else
              { d with quic_streams :=
                  alist_put d.quic_streams stream_id { stream with buf := none } }
          { ret := .ok, roqdemux := d,
            emitted := some (stream.onward_src_pad, asm) }

/-- Embeds the datagram path of `gst_rtp_quic_demux_chain`: parse the flow-id
varint, read the payload type at `off + 1` and the SSRC at `off + 8`, route
via `rtp_quic_demux_get_src_pad`, and push the buffer with the flow-id varint
stripped.  (The source assembles the SSRC big-endian and then applies
`ntohl` to it; the SSRC value only serves as a routing key here.) -/
def gst_rtp_quic_demux_chain_datagram (d : GstRtpQuicDemux)
    (chunk : List Nat) : DemuxChainResult :=
  match gst_quiclib_get_varint chunk with
  | none => { ret := .error, roqdemux := d, emitted := none }
  | some (flow_id, off) =>
    match chunk[off + 1]?, read_u32_be chunk (off + 8) with
    | some payload_type, some ssrc =>
      let r := rtp_quic_demux_get_src_pad d flow_id ssrc payload_type
      match r.1 with
      | none => { ret := .error, roqdemux := r.2, emitted := none }
      | some pad =>
        { ret := .ok, roqdemux := r.2, emitted := some (pad, chunk.drop off) }
    | _, _ => { ret := .error, roqdemux := d, emitted := none }

/-- Modelled from the spec: `QUICLIB_STREAM_IS_UNI` of the external quiclib —
a QUIC stream id denotes a unidirectional stream when bit 0x2 of its type
bits is set (RFC 9000). -/
def QUICLIB_STREAM_IS_UNI (stream_id : Nat) : Bool :=
  stream_id &&& 2 == 2

/-- Result of the `quic-stream-open` query. -/
structure DemuxQueryResult where
  rv : Bool
  roqdemux : GstRtpQuicDemux
deriving DecidableEq, Repr

/-- Embeds the `QUICLIB_STREAM_OPEN` branch of `gst_rtp_quic_demux_query`:
reject already-known or non-unidirectional streams, parse the peeked
uni-stream-type (when configured), flow-id and payload-size varints, read the
payload type, auto-learn the RTP flow id when it is unset, pick the SSRC
offset by the flow discrimination (the source's payload-type test here is
`>= 64 || <= 95`, and both of its branches read the SSRC at the same
offset), route via `rtp_quic_demux_get_src_pad` and register the new stream
state.  The `rv := false` answers on exhausted buffers stand for reads past
the peeked data. -/
def gst_rtp_quic_demux_query_stream_open (d : GstRtpQuicDemux)
    (stream_id : Nat) (peek : List Nat) : DemuxQueryResult :=
  if (d.quic_streams.lookup stream_id).isSome then
    { rv := false, roqdemux := d }
  else if QUICLIB_STREAM_IS_UNI stream_id then
    match (if d.match_uni_stream_type then
            match gst_quiclib_get_varint peek with
            | none => none
            | some (ust, l1) =>
              if ust ≠ d.uni_stream_type then none else some l1
           else some 0) with
    | none => { rv := false, roqdemux := d }
    | some l1 =>
      match gst_quiclib_get_varint (peek.drop l1) with
      | none => { rv := false, roqdemux := d }
      | some (flow_id, l2) =>
        match gst_quiclib_get_varint (peek.drop (l1 + l2)) with
        | none => { rv := false, roqdemux := d }
        | some (_payload_size, l3) =>
          let varint_size := l1 + l2 + l3
          match peek[varint_size + 1]? with
          | none => { rv := false, roqdemux := d }
          | some payload_type =>
            let d :=
              if d.rtp_flow_id = -1 then
                gst_rtp_quic_demux_set_rtp_flow_id d (flow_id : Int)
              else d
            let ssrc_off :=
              if flow_id = guint64_of_gint64 d.rtp_flow_id ∧
                  d.rtp_flow_id ≠ d.rtcp_flow_id then
                some (varint_size + 8)
              else if flow_id = guint64_of_gint64 d.rtcp_flow_id ∨
                  (d.rtcp_flow_id = -1 ∧ d.rtp_flow_id ≠ -1 ∧
                    flow_id = guint64_of_gint64 (d.rtp_flow_id + 1)) then
                some (varint_size + 4)
              else if d.rtp_flow_id = d.rtcp_flow_id then
                if 64 ≤ (payload_type &&& 0x7f) ∨ (payload_type &&& 0x7f) ≤ 95 then
                  some (varint_size + 4)
                else
                  some (varint_size + 4)
              else none
            match ssrc_off with
            | none => { rv := false, roqdemux := d }
            | some off =>
              match read_u32_be peek off with
              | none => { rv := false, roqdemux := d }
              | some ssrc =>
                let r := rtp_quic_demux_get_src_pad d flow_id ssrc payload_type
                match r.1 with
                | none => { rv := false, roqdemux := r.2 }
                | some pad =>
                  { rv := true,
                    roqdemux := { r.2 with
                      quic_streams := alist_put r.2.quic_streams stream_id
                        { onward_src_pad := pad, expected_payloadlen := 0,
                          buf := none } } }
  else { rv := false, roqdemux := d }

lemma alist_put_lookup_self {β : Type} (l : List (Nat × β)) (k : Nat) (v : β) :
    (alist_put l k v).lookup k = some v := by
  induction l with
  | nil => simp [alist_put, List.lookup]
  | cons e rest ih =>
    obtain ⟨k', v'⟩ := e
    by_cases h : k' = k
    · simp [alist_put, h, List.lookup]
    · simp only [alist_put, h, if_false]
      simpa [List.lookup, show (k == k') = false by
        simpa [beq_iff_eq] using fun hh => h hh.symm] using ih

lemma alist_lookup_none_of_not_mem {β : Type} (l : List (Nat × β)) (k : Nat)
    (h : k ∉ l.map Prod.fst) : l.lookup k = none := by
  induction l with
  | nil => simp [List.lookup]
  | cons e rest ih =>
    obtain ⟨k', v'⟩ := e
    simp only [List.map_cons, List.mem_cons] at h
    push_neg at h
    simpa [List.lookup, show (k == k') = false by
      simpa [beq_iff_eq] using h.1] using ih h.2

lemma alist_remove_lookup_self {β : Type} (l : List (Nat × β)) (k : Nat)
    (hnodup : (l.map Prod.fst).Nodup) :
    (alist_remove l k).lookup k = none := by
  induction l with
  | nil => simp [alist_remove, List.lookup]
  | cons e rest ih =>
    obtain ⟨k', v'⟩ := e
    simp only [List.map_cons, List.nodup_cons] at hnodup
    by_cases h : k' = k
    · simp only [alist_remove, if_pos h]
      exact alist_lookup_none_of_not_mem rest k (by rw [← h]; exact hnodup.1)
    · simpa [alist_remove, h, List.lookup, show (k == k') = false by
        simpa [beq_iff_eq] using fun hh => h hh.symm] using ih hnodup.2

/-- C10: `rtp_quic_demux_get_rtp_src_pad` masks the payload type with `0x7f`
before any lookup or pad creation, so two payload-type arguments with the
same low 7 bits (in particular, two that differ only in the top bit) yield
the same output pad and leave the demuxer — including its routing table — in
the same state, so at most one routing entry keyed by (SSRC, pt & 0x7f) is
created for them. -/
theorem rtp_src_pad_masks_payload_type (d : GstRtpQuicDemux)
    (ssrc pt1 pt2 : Nat) (h : pt1 &&& 0x7f = pt2 &&& 0x7f) :
    rtp_quic_demux_get_rtp_src_pad d ssrc pt1 =
      rtp_quic_demux_get_rtp_src_pad d ssrc pt2 := by
  unfold rtp_quic_demux_get_rtp_src_pad
  rw [h]

/-- Witness for C10: payload types 96 and 224 (differing only in the top
bit) are routed identically by a fresh demuxer. -/
theorem rtp_src_pad_masks_payload_type_witness :
    (96 &&& 0x7f = 224 &&& 0x7f) ∧
    (rtp_quic_demux_get_rtp_src_pad
      ({ rtp_flow_id := 7, rtcp_flow_id := 8, uni_stream_type := 0,
         match_uni_stream_type := false, src_ssrcs := [], src_ssrcs_rtcp := [],
         quic_streams := [], pending_req_sinks := [],
         next_pad := 0 } : GstRtpQuicDemux) 11 96 =
     rtp_quic_demux_get_rtp_src_pad
      ({ rtp_flow_id := 7, rtcp_flow_id := 8, uni_stream_type := 0,
         match_uni_stream_type := false, src_ssrcs := [], src_ssrcs_rtcp := [],
         quic_streams := [], pending_req_sinks := [],
         next_pad := 0 } : GstRtpQuicDemux) 11 224) :=
  ⟨by decide,
   rtp_src_pad_masks_payload_type
    ({ rtp_flow_id := 7, rtcp_flow_id := 8, uni_stream_type := 0,
       match_uni_stream_type := false, src_ssrcs := [], src_ssrcs_rtcp := [],
       quic_streams := [], pending_req_sinks := [],
       next_pad := 0 } : GstRtpQuicDemux) 11 96 224 (by decide)⟩

/-- Counterexample for C8: a zero-length final chunk on stream 4 returns OK
 without emitting, but the stream's reassembly state is NOT removed — the
lookup still succeeds afterwards (the claim requires it to be gone). -/
theorem zero_length_final_keeps_state_cex :
    ((gst_rtp_quic_demux_chain_stream
      ({ rtp_flow_id := 7, rtcp_flow_id := 8, uni_stream_type := 0,
         match_uni_stream_type := false, src_ssrcs := [], src_ssrcs_rtcp := [],
         quic_streams := [(4, { onward_src_pad := (PadKind.rtp, 0),
                                expected_payloadlen := 1200,
                                buf := some [1, 2, 3] })],
         pending_req_sinks := [], next_pad := 1 } : GstRtpQuicDemux)
      4 50 true []).emitted = none) ∧
    ((gst_rtp_quic_demux_chain_stream
      ({ rtp_flow_id := 7, rtcp_flow_id := 8, uni_stream_type := 0,
         match_uni_stream_type := false, src_ssrcs := [], src_ssrcs_rtcp := [],
         quic_streams := [(4, { onward_src_pad := (PadKind.rtp, 0),
                                expected_payloadlen := 1200,
                                buf := some [1, 2, 3] })],
         pending_req_sinks := [], next_pad := 1 } : GstRtpQuicDemux)
      4 50 true []).roqdemux.quic_streams.lookup 4 =
      some { onward_src_pad := (PadKind.rtp, 0), expected_payloadlen := 1200,
             buf := some [1, 2, 3] }) := by
  constructor
  · rfl
  · rfl

/-- C8 (amended): for every stream-delivered chunk of zero length carrying
the final marker on a known stream, the chain returns `GST_FLOW_OK` without
emitting anything and leaves the demuxer — including that stream's
reassembly state — unchanged (the stream-state removal at this point is
commented out in the source). -/
theorem zero_length_final_no_emit_state_kept (d : GstRtpQuicDemux)
    (stream_id meta_offset : Nat) (st : RtpQuicDemuxStream)
    (h : d.quic_streams.lookup stream_id = some st) :
    gst_rtp_quic_demux_chain_stream d stream_id meta_offset true [] =
      { ret := DemuxFlowRet.ok, roqdemux := d, emitted := none } := by
  unfold gst_rtp_quic_demux_chain_stream
  rw [h]
  rfl

/-- Witness for C8 (amended) on the counterexample's demuxer state. -/
theorem zero_length_final_no_emit_state_kept_witness :
    (({ rtp_flow_id := 7, rtcp_flow_id := 8, uni_stream_type := 0,
        match_uni_stream_type := false, src_ssrcs := [], src_ssrcs_rtcp := [],
        quic_streams := [(4, { onward_src_pad := (PadKind.rtp, 0),
                               expected_payloadlen := 1200,
                               buf := some [1, 2, 3] })],
        pending_req_sinks := [], next_pad := 1 } :
          GstRtpQuicDemux).quic_streams.lookup 4 =
      some { onward_src_pad := (PadKind.rtp, 0), expected_payloadlen := 1200,
             buf := some [1, 2, 3] }) ∧
    (gst_rtp_quic_demux_chain_stream
      ({ rtp_flow_id := 7, rtcp_flow_id := 8, uni_stream_type := 0,
         match_uni_stream_type := false, src_ssrcs := [], src_ssrcs_rtcp := [],
         quic_streams := [(4, { onward_src_pad := (PadKind.rtp, 0),
                                expected_payloadlen := 1200,
                                buf := some [1, 2, 3] })],
         pending_req_sinks := [], next_pad := 1 } : GstRtpQuicDemux)
      4 50 true [] =
      { ret := DemuxFlowRet.ok,
        roqdemux :=
          ({ rtp_flow_id := 7, rtcp_flow_id := 8, uni_stream_type := 0,
             match_uni_stream_type := false, src_ssrcs := [],
             src_ssrcs_rtcp := [],
             quic_streams := [(4, { onward_src_pad := (PadKind.rtp, 0),
                                    expected_payloadlen := 1200,
                                    buf := some [1, 2, 3] })],
             pending_req_sinks := [], next_pad := 1 } : GstRtpQuicDemux),
        emitted := none }) :=
  ⟨by decide,
   zero_length_final_no_emit_state_kept _ 4 50
     { onward_src_pad := (PadKind.rtp, 0), expected_payloadlen := 1200,
       buf := some [1, 2, 3] } (by decide)⟩

lemma rtp_quic_demux_get_rtp_src_pad_kind (d : GstRtpQuicDemux)
    (ssrc pt : Nat) :
    (rtp_quic_demux_get_rtp_src_pad d ssrc pt).1.1 = PadKind.rtp := by
  unfold rtp_quic_demux_get_rtp_src_pad
  dsimp only
  split
  · rfl
  · split <;> rfl

lemma rtp_quic_demux_get_rtcp_src_pad_kind (d : GstRtpQuicDemux)
    (ssrc : Nat) :
    (rtp_quic_demux_get_rtcp_src_pad d ssrc).1.1 = PadKind.rtcp := by
  unfold rtp_quic_demux_get_rtcp_src_pad
  split
  · rfl
  · dsimp only
    split <;> rfl

lemma rtp_quic_demux_get_rtp_src_pad_flow (d : GstRtpQuicDemux)
    (ssrc pt : Nat) :
    (rtp_quic_demux_get_rtp_src_pad d ssrc pt).2.rtp_flow_id = d.rtp_flow_id ∧
    (rtp_quic_demux_get_rtp_src_pad d ssrc pt).2.rtcp_flow_id =
      d.rtcp_flow_id := by
  unfold rtp_quic_demux_get_rtp_src_pad
  dsimp only
  split
  · exact ⟨rfl, rfl⟩
  · split <;> exact ⟨rfl, rfl⟩

lemma rtp_quic_demux_get_rtcp_src_pad_flow (d : GstRtpQuicDemux) (ssrc : Nat) :
    (rtp_quic_demux_get_rtcp_src_pad d ssrc).2.rtp_flow_id = d.rtp_flow_id ∧
    (rtp_quic_demux_get_rtcp_src_pad d ssrc).2.rtcp_flow_id =
      d.rtcp_flow_id := by
  unfold rtp_quic_demux_get_rtcp_src_pad
  split
  · exact ⟨rfl, rfl⟩
  · dsimp only
    split <;> exact ⟨rfl, rfl⟩

lemma rtp_quic_demux_get_src_pad_flow (d : GstRtpQuicDemux)
    (flow ssrc pt : Nat) :
    (rtp_quic_demux_get_src_pad d flow ssrc pt).2.rtp_flow_id =
      d.rtp_flow_id ∧
    (rtp_quic_demux_get_src_pad d flow ssrc pt).2.rtcp_flow_id =
      d.rtcp_flow_id := by
  unfold rtp_quic_demux_get_src_pad
  split
  · exact rtp_quic_demux_get_rtp_src_pad_flow d ssrc pt
  · split
    · exact rtp_quic_demux_get_rtcp_src_pad_flow d ssrc
    · split
      · split
        · exact rtp_quic_demux_get_rtcp_src_pad_flow d ssrc
        · exact rtp_quic_demux_get_rtp_src_pad_flow d ssrc pt
      · exact ⟨rfl, rfl⟩

/-- Counterexample for C6: with rtp_flow_id = rtcp_flow_id = 5, a frame with
flow_id 5 and payload type 96 — outside [64, 95], which the claim says must
go to the RTP output — is routed to the RTCP output, because the
flow_id == rtcp_flow_id branch is tested before the payload-type
discrimination. -/
theorem common_flow_id_routing_cex :
    (¬(64 ≤ 96 &&& 0x7f ∧ 96 &&& 0x7f ≤ 95)) ∧
    ((rtp_quic_demux_get_src_pad
      ({ rtp_flow_id := 5, rtcp_flow_id := 5, uni_stream_type := 0,
         match_uni_stream_type := false, src_ssrcs := [], src_ssrcs_rtcp := [],
         quic_streams := [], pending_req_sinks := [],
         next_pad := 0 } : GstRtpQuicDemux) 5 1 96).1 =
      some (PadKind.rtcp, 0)) := by
  constructor
  · decide
  · decide

lemma guint64_of_gint64_ofNat (f : Nat) (h : f < 2 ^ 64) :
    guint64_of_gint64 (f : Int) = f := by
  unfold guint64_of_gint64
  have h64 : (2 : Int) ^ 64 = 18446744073709551616 := by norm_num
  rw [h64]
  omega

lemma gst_rtp_quic_demux_set_rtp_flow_id_unset (d : GstRtpQuicDemux) (f : Nat)
    (hrtcp : d.rtcp_flow_id = -1) :
    gst_rtp_quic_demux_set_rtp_flow_id d (f : Int) =
      { d with rtp_flow_id := (f : Int),
               rtcp_flow_id := (f : Int) + 1 } := by
  unfold gst_rtp_quic_demux_set_rtp_flow_id gst_rtp_quic_demux_set_rtcp_flow_id
  simp [hrtcp, show ((f : Int)) ≠ -1 by omega,
    show ¬((f : Int) + 1 = -1) by omega]

lemma rtp_quic_demux_get_src_pad_common (d : GstRtpQuicDemux)
    (flow ssrc pt : Nat) (hcfg : d.rtp_flow_id = d.rtcp_flow_id) :
    rtp_quic_demux_get_src_pad d flow ssrc pt =
      (if flow = guint64_of_gint64 d.rtcp_flow_id ∨
          (64 ≤ (pt &&& 0x7f) ∧ (pt &&& 0x7f) ≤ 95) then
        (some (rtp_quic_demux_get_rtcp_src_pad d ssrc).1,
         (rtp_quic_demux_get_rtcp_src_pad d ssrc).2)
      else
        (some (rtp_quic_demux_get_rtp_src_pad d ssrc pt).1,
         (rtp_quic_demux_get_rtp_src_pad d ssrc pt).2)) := by
  have hno1 : ¬(flow = guint64_of_gint64 d.rtp_flow_id ∧
      d.rtp_flow_id ≠ d.rtcp_flow_id) := fun hh => hh.2 hcfg
  have hclause : ¬(d.rtcp_flow_id = -1 ∧ d.rtp_flow_id ≠ -1 ∧
      flow = guint64_of_gint64 (d.rtp_flow_id + 1)) := by
    rintro ⟨h1, h2, _⟩
    exact h2 (hcfg.trans h1)
  unfold rtp_quic_demux_get_src_pad
  rw [if_neg hno1]
  by_cases hflow : flow = guint64_of_gint64 d.rtcp_flow_id
  · rw [if_pos (Or.inl hflow), if_pos (Or.inl hflow)]
  · rw [if_neg (by rintro (h | h); exact hflow h; exact hclause h),
      if_pos hcfg]
    by_cases hpt : 64 ≤ (pt &&& 0x7f) ∧ (pt &&& 0x7f) ≤ 95
    · rw [if_pos hpt, if_pos (Or.inr hpt)]
    · rw [if_neg hpt, if_neg (by rintro (h | h); exact hflow h; exact hpt h)]

/-- C6 (amended): while rtp_flow_id == rtcp_flow_id, a frame whose flow_id
equals that common configured value (as a guint64) is routed to the RTCP
output regardless of payload type, because the flow_id == rtcp_flow_id
branch precedes the discrimination; only a frame whose flow_id matches
neither configured id reaches the payload_type & 0x7f discrimination, where
exactly the values in [64, 95] go to the RTCP output and all others to the
RTP output.  The stream-open query path routes through the same
`rtp_quic_demux_get_src_pad`, so the registered stream's output obeys the
same rule (its own `>= 64 || <= 95` payload-type test only selects the SSRC
offset, identically in both of its branches). -/
theorem common_flow_id_routing (d : GstRtpQuicDemux) (flow ssrc pt : Nat)
    (hcfg : d.rtp_flow_id = d.rtcp_flow_id) :
    (flow = guint64_of_gint64 d.rtcp_flow_id →
      (rtp_quic_demux_get_src_pad d flow ssrc pt).1.map Prod.fst =
        some PadKind.rtcp) ∧
    (flow ≠ guint64_of_gint64 d.rtcp_flow_id →
      (rtp_quic_demux_get_src_pad d flow ssrc pt).1.map Prod.fst =
        some (if 64 ≤ (pt &&& 0x7f) ∧ (pt &&& 0x7f) ≤ 95 then PadKind.rtcp
              else PadKind.rtp)) ∧
    (∀ stream_id peek l2 l3 sz,
      d.rtp_flow_id ≠ -1 →
      d.quic_streams.lookup stream_id = none →
      QUICLIB_STREAM_IS_UNI stream_id = true →
      d.match_uni_stream_type = false →
      gst_quiclib_get_varint peek = some (flow, l2) →
      gst_quiclib_get_varint (peek.drop l2) = some (sz, l3) →
      peek[l2 + l3 + 1]? = some pt →
      read_u32_be peek (l2 + l3 + 4) = some ssrc →
      ∃ st, (gst_rtp_quic_demux_query_stream_open d stream_id
          peek).roqdemux.quic_streams.lookup stream_id = some st ∧
        st.onward_src_pad.1 =
          (if flow = guint64_of_gint64 d.rtcp_flow_id then PadKind.rtcp
           else if 64 ≤ (pt &&& 0x7f) ∧ (pt &&& 0x7f) ≤ 95 then PadKind.rtcp
           else PadKind.rtp)) := by
  have hno1 : ¬(flow = guint64_of_gint64 d.rtp_flow_id ∧
      d.rtp_flow_id ≠ d.rtcp_flow_id) := fun hh => hh.2 hcfg
  have hclause : ¬(d.rtcp_flow_id = -1 ∧ d.rtp_flow_id ≠ -1 ∧
      flow = guint64_of_gint64 (d.rtp_flow_id + 1)) := by
    rintro ⟨h1, h2, _⟩
    exact h2 (hcfg.trans h1)
  refine ⟨?_, ?_, ?_⟩
  · intro hflow
    unfold rtp_quic_demux_get_src_pad
    rw [if_neg hno1, if_pos (Or.inl hflow)]
    simp [rtp_quic_demux_get_rtcp_src_pad_kind]
  · intro hflow
    unfold rtp_quic_demux_get_src_pad
    rw [if_neg hno1, if_neg (by rintro (h | h); exact hflow h; exact hclause h),
      if_pos hcfg]
    by_cases hpt : 64 ≤ (pt &&& 0x7f) ∧ (pt &&& 0x7f) ≤ 95
    · rw [if_pos hpt, if_pos hpt]
      simp [rtp_quic_demux_get_rtcp_src_pad_kind]
    · rw [if_neg hpt, if_neg hpt]
      simp [rtp_quic_demux_get_rtp_src_pad_kind]
  · intro stream_id peek l2 l3 sz hrtp hfresh huni hmu hv1 hv2 hpt hssrc
    unfold gst_rtp_quic_demux_query_stream_open
    rw [if_neg (by simp [hfresh]), if_pos huni]
    simp only [hmu, Bool.false_eq_true, if_false, List.drop_zero, hv1,
      Nat.zero_add, hv2, hpt]
    rw [if_neg hrtp]
    rw [if_neg hno1]
    by_cases hflow : flow = guint64_of_gint64 d.rtcp_flow_id
    · rw [if_pos (Or.inl hflow)]
      simp only [hssrc]
      rw [rtp_quic_demux_get_src_pad_common d flow ssrc pt hcfg,
        if_pos (Or.inl hflow)]
      refine ⟨_, alist_put_lookup_self _ _ _, ?_⟩
      rw [if_pos hflow]
      exact rtp_quic_demux_get_rtcp_src_pad_kind _ _
    · rw [if_neg (by rintro (h | h); exact hflow h; exact hclause h),
        if_pos hcfg, ite_self]
      simp only [hssrc]
      rw [rtp_quic_demux_get_src_pad_common d flow ssrc pt hcfg]
      by_cases hpt2 : 64 ≤ (pt &&& 0x7f) ∧ (pt &&& 0x7f) ≤ 95
      · rw [if_pos (Or.inr hpt2)]
        refine ⟨_, alist_put_lookup_self _ _ _, ?_⟩
        rw [if_neg hflow, if_pos hpt2]
        exact rtp_quic_demux_get_rtcp_src_pad_kind _ _
      · rw [if_neg (by rintro (h | h); exact hflow h; exact hpt2 h)]
        refine ⟨_, alist_put_lookup_self _ _ _, ?_⟩
        rw [if_neg hflow, if_neg hpt2]
        exact rtp_quic_demux_get_rtp_src_pad_kind _ _ _

/-- Witness for C6 (amended) with rtp_flow_id = rtcp_flow_id = 5: flow 5 is
routed to the RTCP output even with payload type 96; flow 6 with payload
type 96 falls to the discrimination and is routed to the RTP output; and a
stream-open query for flow 5 registers an RTCP-routed stream. -/
theorem common_flow_id_routing_witness :
    (({ rtp_flow_id := 5, rtcp_flow_id := 5, uni_stream_type := 0,
        match_uni_stream_type := false, src_ssrcs := [], src_ssrcs_rtcp := [],
        quic_streams := [], pending_req_sinks := [],
        next_pad := 0 } : GstRtpQuicDemux).rtp_flow_id =
     ({ rtp_flow_id := 5, rtcp_flow_id := 5, uni_stream_type := 0,
        match_uni_stream_type := false, src_ssrcs := [], src_ssrcs_rtcp := [],
        quic_streams := [], pending_req_sinks := [],
        next_pad := 0 } : GstRtpQuicDemux).rtcp_flow_id) ∧
    ((rtp_quic_demux_get_src_pad
      ({ rtp_flow_id := 5, rtcp_flow_id := 5, uni_stream_type := 0,
         match_uni_stream_type := false, src_ssrcs := [], src_ssrcs_rtcp := [],
         quic_streams := [], pending_req_sinks := [],
         next_pad := 0 } : GstRtpQuicDemux) 5 1 96).1.map Prod.fst =
      some PadKind.rtcp) ∧
    ((rtp_quic_demux_get_src_pad
      ({ rtp_flow_id := 5, rtcp_flow_id := 5, uni_stream_type := 0,
         match_uni_stream_type := false, src_ssrcs := [], src_ssrcs_rtcp := [],
         quic_streams := [], pending_req_sinks := [],
         next_pad := 0 } : GstRtpQuicDemux) 6 1 96).1.map Prod.fst =
      some (if 64 ≤ (96 &&& 0x7f) ∧ (96 &&& 0x7f) ≤ 95 then PadKind.rtcp
            else PadKind.rtp)) ∧
    (∃ st, (gst_rtp_quic_demux_query_stream_open
      ({ rtp_flow_id := 5, rtcp_flow_id := 5, uni_stream_type := 0,
         match_uni_stream_type := false, src_ssrcs := [], src_ssrcs_rtcp := [],
         quic_streams := [], pending_req_sinks := [],
         next_pad := 0 } : GstRtpQuicDemux) 2
      [5, 4, 0x80, 96, 1, 2, 3, 4, 5, 6]).roqdemux.quic_streams.lookup 2 =
        some st ∧
      st.onward_src_pad.1 =
        (if 5 = guint64_of_gint64
            ({ rtp_flow_id := 5, rtcp_flow_id := 5, uni_stream_type := 0,
               match_uni_stream_type := false, src_ssrcs := [],
               src_ssrcs_rtcp := [], quic_streams := [],
               pending_req_sinks := [],
               next_pad := 0 } : GstRtpQuicDemux).rtcp_flow_id then
          PadKind.rtcp
         else if 64 ≤ (96 &&& 0x7f) ∧ (96 &&& 0x7f) ≤ 95 then PadKind.rtcp
         else PadKind.rtp)) :=
  ⟨by decide,
   (common_flow_id_routing _ 5 1 96 (by decide)).1 (by decide),
   (common_flow_id_routing _ 6 1 96 (by decide)).2.1 (by decide),
   (common_flow_id_routing _ 5 50595078 96 (by decide)).2.2 2
     [5, 4, 0x80, 96, 1, 2, 3, 4, 5, 6] 1 1 4 (by decide) (by decide)
     (by decide) (by decide) (by decide) (by decide) (by decide) (by decide)⟩

lemma rtp_quic_demux_get_src_pad_rtp_branch (d : GstRtpQuicDemux)
    (flow ssrc pt : Nat)
    (h1 : flow = guint64_of_gint64 d.rtp_flow_id)
    (h2 : d.rtp_flow_id ≠ d.rtcp_flow_id) :
    rtp_quic_demux_get_src_pad d flow ssrc pt =
      (some (rtp_quic_demux_get_rtp_src_pad d ssrc pt).1,
       (rtp_quic_demux_get_rtp_src_pad d ssrc pt).2) := by
  unfold rtp_quic_demux_get_src_pad
  rw [if_pos ⟨h1, h2⟩]

/-- Counterexample for C2: a demuxer with rtp_flow_id = −1 receiving its
first frame with flow_id 17 and payload_type 200 (≥ 128) sets
rtp_flow_id ← 17 (not 16) and rtcp_flow_id ← 18 (not 17), and the frame is
routed to the RTP output (not RTCP): the auto-learn in the source has no
payload_type ≥ 128 exception. -/
theorem auto_learn_no_rtcp_exception_cex :
    ((gst_rtp_quic_demux_query_stream_open
      ({ rtp_flow_id := -1, rtcp_flow_id := -1, uni_stream_type := 0,
         match_uni_stream_type := false, src_ssrcs := [], src_ssrcs_rtcp := [],
         quic_streams := [], pending_req_sinks := [],
         next_pad := 0 } : GstRtpQuicDemux) 2
      [17, 8, 0x80, 200, 1, 2, 3, 4, 9, 9, 9, 9, 7, 7]).roqdemux.rtp_flow_id
      = 17) ∧
    ((gst_rtp_quic_demux_query_stream_open
      ({ rtp_flow_id := -1, rtcp_flow_id := -1, uni_stream_type := 0,
         match_uni_stream_type := false, src_ssrcs := [], src_ssrcs_rtcp := [],
         quic_streams := [], pending_req_sinks := [],
         next_pad := 0 } : GstRtpQuicDemux) 2
      [17, 8, 0x80, 200, 1, 2, 3, 4, 9, 9, 9, 9, 7, 7]).roqdemux.rtcp_flow_id
      = 18) ∧
    ((gst_rtp_quic_demux_query_stream_open
      ({ rtp_flow_id := -1, rtcp_flow_id := -1, uni_stream_type := 0,
         match_uni_stream_type := false, src_ssrcs := [], src_ssrcs_rtcp := [],
         quic_streams := [], pending_req_sinks := [],
         next_pad := 0 } : GstRtpQuicDemux) 2
      [17, 8, 0x80, 200, 1, 2, 3, 4, 9, 9, 9, 9, 7, 7]).roqdemux.quic_streams.lookup 2 =
      some { onward_src_pad := (PadKind.rtp, 0), expected_payloadlen := 0,
             buf := none }) := by
  refine ⟨?_, ?_, ?_⟩ <;> decide

/-- C2 (amended): if rtp_flow_id is −1 (and rtcp_flow_id unset) when the
first RoQ frame arrives, the demuxer sets rtp_flow_id to the observed
flow_id unconditionally — there is no payload_type ≥ 128 exception — and
rtcp_flow_id to flow_id + 1; the frame is then routed as RTP (the observed
flow equals the learned RTP flow id and differs from the RTCP flow id). -/
theorem auto_learn_sets_observed_flow_id (d : GstRtpQuicDemux)
    (stream_id : Nat) (peek : List Nat) (f l2 sz l3 pt ssrc : Nat)
    (hrtp : d.rtp_flow_id = -1) (hrtcp : d.rtcp_flow_id = -1)
    (hmu : d.match_uni_stream_type = false)
    (hfresh : d.quic_streams.lookup stream_id = none)
    (huni : QUICLIB_STREAM_IS_UNI stream_id = true)
    (hv1 : gst_quiclib_get_varint peek = some (f, l2))
    (hv2 : gst_quiclib_get_varint (peek.drop l2) = some (sz, l3))
    (hpt : peek[l2 + l3 + 1]? = some pt)
    (hssrc : read_u32_be peek (l2 + l3 + 8) = some ssrc)
    (hf : f < 2 ^ 62) :
    (gst_rtp_quic_demux_query_stream_open d stream_id
      peek).roqdemux.rtp_flow_id = (f : Int) ∧
    (gst_rtp_quic_demux_query_stream_open d stream_id
      peek).roqdemux.rtcp_flow_id = (f : Int) + 1 ∧
    (gst_rtp_quic_demux_query_stream_open d stream_id peek).rv = true ∧
    ∃ st, (gst_rtp_quic_demux_query_stream_open d stream_id
        peek).roqdemux.quic_streams.lookup stream_id = some st ∧
      st.onward_src_pad.1 = PadKind.rtp := by
  have hg : guint64_of_gint64 ((f : Int)) = f :=
    guint64_of_gint64_ofNat f (by omega)
  unfold gst_rtp_quic_demux_query_stream_open
  rw [if_neg (by simp [hfresh]), if_pos huni]
  simp only [hmu, Bool.false_eq_true, if_false, List.drop_zero, hv1,
    Nat.zero_add, hv2, hpt]
  rw [if_pos hrtp, gst_rtp_quic_demux_set_rtp_flow_id_unset d f hrtcp]
  dsimp only
  rw [hg]
  rw [if_pos ⟨rfl, by omega⟩]
  simp only [hssrc]
  rw [rtp_quic_demux_get_src_pad_rtp_branch _ f ssrc pt
    (by dsimp only; rw [hg]) (by dsimp only; omega)]
  refine ⟨(rtp_quic_demux_get_rtp_src_pad_flow _ _ _).1,
    (rtp_quic_demux_get_rtp_src_pad_flow _ _ _).2, rfl,
    ⟨_, alist_put_lookup_self _ _ _,
      rtp_quic_demux_get_rtp_src_pad_kind _ _ _⟩⟩

/-- Witness for C2 (amended) on the counterexample's input: flow 17 with
payload type 200 yields rtp_flow_id = 17, rtcp_flow_id = 18 and an
RTP-routed stream. -/
theorem auto_learn_sets_observed_flow_id_witness :
    ((gst_rtp_quic_demux_query_stream_open
      ({ rtp_flow_id := -1, rtcp_flow_id := -1, uni_stream_type := 0,
         match_uni_stream_type := false, src_ssrcs := [], src_ssrcs_rtcp := [],
         quic_streams := [], pending_req_sinks := [],
         next_pad := 0 } : GstRtpQuicDemux) 2
      [17, 8, 0x80, 200, 1, 2, 3, 4, 9, 9, 9, 9, 7, 7]).roqdemux.rtp_flow_id
      = ((17 : Nat) : Int)) ∧
    ((gst_rtp_quic_demux_query_stream_open
      ({ rtp_flow_id := -1, rtcp_flow_id := -1, uni_stream_type := 0,
         match_uni_stream_type := false, src_ssrcs := [], src_ssrcs_rtcp := [],
         quic_streams := [], pending_req_sinks := [],
         next_pad := 0 } : GstRtpQuicDemux) 2
      [17, 8, 0x80, 200, 1, 2, 3, 4, 9, 9, 9, 9, 7, 7]).roqdemux.rtcp_flow_id
      = ((17 : Nat) : Int) + 1) ∧
    ((gst_rtp_quic_demux_query_stream_open
      ({ rtp_flow_id := -1, rtcp_flow_id := -1, uni_stream_type := 0,
         match_uni_stream_type := false, src_ssrcs := [], src_ssrcs_rtcp := [],
         quic_streams := [], pending_req_sinks := [],
         next_pad := 0 } : GstRtpQuicDemux) 2
      [17, 8, 0x80, 200, 1, 2, 3, 4, 9, 9, 9, 9, 7, 7]).rv = true) ∧
    (∃ st, (gst_rtp_quic_demux_query_stream_open
      ({ rtp_flow_id := -1, rtcp_flow_id := -1, uni_stream_type := 0,
         match_uni_stream_type := false, src_ssrcs := [], src_ssrcs_rtcp := [],
         quic_streams := [], pending_req_sinks := [],
         next_pad := 0 } : GstRtpQuicDemux) 2
      [17, 8, 0x80, 200, 1, 2, 3, 4, 9, 9, 9, 9, 7, 7]).roqdemux.quic_streams.lookup 2 = some st ∧
      st.onward_src_pad.1 = PadKind.rtp) :=
  auto_learn_sets_observed_flow_id
    ({ rtp_flow_id := -1, rtcp_flow_id := -1, uni_stream_type := 0,
       match_uni_stream_type := false, src_ssrcs := [], src_ssrcs_rtcp := [],
       quic_streams := [], pending_req_sinks := [],
       next_pad := 0 } : GstRtpQuicDemux) 2
    [17, 8, 0x80, 200, 1, 2, 3, 4, 9, 9, 9, 9, 7, 7] 17 1 8 1 200 151586567
    (by decide) (by decide) (by decide) (by decide) (by decide) (by decide)
    (by decide) (by decide) (by decide) (by decide)

lemma gst_rtp_quic_demux_set_rtp_flow_id_quic_streams (d : GstRtpQuicDemux)
    (v : Int) :
    (gst_rtp_quic_demux_set_rtp_flow_id d v).quic_streams = d.quic_streams := by
  unfold gst_rtp_quic_demux_set_rtp_flow_id gst_rtp_quic_demux_set_rtcp_flow_id
  dsimp only
  split
  · split <;> rfl
  · rfl

lemma rtp_quic_demux_parse_flow_quic_streams (d : GstRtpQuicDemux)
    (chunk : List Nat) (d2 : GstRtpQuicDemux) (l : Nat)
    (h : rtp_quic_demux_parse_flow d chunk = some (d2, l)) :
    d2.quic_streams = d.quic_streams := by
  unfold rtp_quic_demux_parse_flow at h
  split at h
  · simp at h
  · split at h
    · simp at h
    · rw [ite_eq_iff] at h
      rcases h with ⟨-, h⟩ | ⟨-, h⟩
      · exact absurd h (by simp)
      · simp only [Option.some.injEq, Prod.mk.injEq] at h
        obtain ⟨hd, -⟩ := h
        subst hd
        by_cases hr : d.rtp_flow_id = -1
        · simp [hr, gst_rtp_quic_demux_set_rtp_flow_id_quic_streams]
        · simp [hr]

lemma rtp_quic_demux_parse_new_packet_shape (d : GstRtpQuicDemux)
    (st : RtpQuicDemuxStream) (meta_offset : Nat) (chunk : List Nat)
    (d2 : GstRtpQuicDemux) (st2 : RtpQuicDemuxStream)
    (h : rtp_quic_demux_parse_new_packet d st meta_offset chunk =
      some (d2, st2)) :
    d2.quic_streams = d.quic_streams ∧
    st2.onward_src_pad = st.onward_src_pad ∧
    ∃ bs, st2.buf = some bs := by
  unfold rtp_quic_demux_parse_new_packet at h
  split at h
  · simp at h
  · rename_i heq1
    split at h
    · simp at h
    · rename_i d1vl explen l3 heq2
      simp only [Option.some.injEq, Prod.mk.injEq] at h
      obtain ⟨hd, hst⟩ := h
      subst hd
      subst hst
      refine ⟨?_, rfl, _, rfl⟩
      by_cases hmo : meta_offset = 0
      · rw [if_pos hmo] at heq1
        exact rtp_quic_demux_parse_flow_quic_streams d chunk _ _ heq1
      · rw [if_neg hmo] at heq1
        simp only [Option.some.injEq, Prod.mk.injEq] at heq1
        rw [← heq1.1]

/-- C3: for every chunk appended to a stream's reassembly buffer (both the
path that extends an in-progress buffer and the path that starts a new
packet after parsing the header), if the buffer has reached the expected
payload length or the chunk carries the final marker, the assembled packet
is emitted on the stream's onward output pad and the reassembly buffer is
cleared (the whole stream state being dropped when the final bit is set);
otherwise nothing is emitted and the kept partially-assembled buffer is
strictly below the expected payload length. -/
theorem reassembly_emit_dichotomy (d : GstRtpQuicDemux)
    (stream_id meta_offset : Nat) (final : Bool) (chunk : List Nat)
    (st : RtpQuicDemuxStream)
    (h1 : d.quic_streams.lookup stream_id = some st)
    (h3 : ¬(chunk.length = 0 ∧ final = true))
    (hnodup : (d.quic_streams.map Prod.fst).Nodup) :
    (∀ b0, st.buf = some b0 →
      if st.expected_payloadlen ≤ (b0 ++ chunk).length ∨ final = true then
        (gst_rtp_quic_demux_chain_stream d stream_id meta_offset final
          chunk).ret = DemuxFlowRet.ok ∧
        (gst_rtp_quic_demux_chain_stream d stream_id meta_offset final
          chunk).emitted = some (st.onward_src_pad, b0 ++ chunk) ∧
        (final = true →
          (gst_rtp_quic_demux_chain_stream d stream_id meta_offset final
            chunk).roqdemux.quic_streams.lookup stream_id = none) ∧
        (final = false →
          (gst_rtp_quic_demux_chain_stream d stream_id meta_offset final
            chunk).roqdemux.quic_streams.lookup stream_id =
            some { st with buf := none })
      else
        (gst_rtp_quic_demux_chain_stream d stream_id meta_offset final
          chunk).ret = DemuxFlowRet.ok ∧
        (gst_rtp_quic_demux_chain_stream d stream_id meta_offset final
          chunk).emitted = none ∧
        (gst_rtp_quic_demux_chain_stream d stream_id meta_offset final
          chunk).roqdemux.quic_streams.lookup stream_id =
          some { st with buf := some (b0 ++ chunk) } ∧
        (b0 ++ chunk).length < st.expected_payloadlen) ∧
    (∀ d2 st2 bs, st.buf = none →
      rtp_quic_demux_parse_new_packet d st meta_offset chunk =
        some (d2, st2) →
      st2.buf = some bs →
      if st2.expected_payloadlen ≤ bs.length ∨ final = true then
        (gst_rtp_quic_demux_chain_stream d stream_id meta_offset final
          chunk).ret = DemuxFlowRet.ok ∧
        (gst_rtp_quic_demux_chain_stream d stream_id meta_offset final
          chunk).emitted = some (st.onward_src_pad, bs) ∧
        (final = true →
          (gst_rtp_quic_demux_chain_stream d stream_id meta_offset final
            chunk).roqdemux.quic_streams.lookup stream_id = none) ∧
        (final = false →
          (gst_rtp_quic_demux_chain_stream d stream_id meta_offset final
            chunk).roqdemux.quic_streams.lookup stream_id =
            some { st2 with buf := none })
      else
        (gst_rtp_quic_demux_chain_stream d stream_id meta_offset final
          chunk).ret = DemuxFlowRet.ok ∧
        (gst_rtp_quic_demux_chain_stream d stream_id meta_offset final
          chunk).emitted = none ∧
        (gst_rtp_quic_demux_chain_stream d stream_id meta_offset final
          chunk).roqdemux.quic_streams.lookup stream_id = some st2 ∧
        bs.length < st2.expected_payloadlen) := by
  constructor
  · intro b0 hb0
    unfold gst_rtp_quic_demux_chain_stream
    simp only [h1]
    rw [if_neg h3]
    simp only [hb0, Option.getD_some]
    by_cases hc : st.expected_payloadlen ≤ (b0 ++ chunk).length ∨ final = true
    · rw [if_pos hc]
      split
      · rename_i hcc
        exfalso
        rcases hc with hle | hft
        · exact absurd hcc.1 (by omega)
        · rw [hft] at hcc
          simp at hcc
      · split
        · rename_i hft
          refine ⟨rfl, rfl, fun _ => ?_, fun hff => ?_⟩
          · exact alist_remove_lookup_self _ _ hnodup
          · rw [hff] at hft
            exact absurd hft (by simp)
        · rename_i hff
          exact ⟨rfl, rfl, fun hft => absurd hft hff,
            fun _ => alist_put_lookup_self _ _ _⟩
    · rw [if_neg hc]
      push_neg at hc
      split
      · exact ⟨rfl, rfl, alist_put_lookup_self _ _ _, by omega⟩
      · rename_i hcc
        exfalso
        apply hcc
        exact ⟨by omega, Bool.eq_false_iff.mpr hc.2⟩
  · intro d2 st2 bs hb0 hp hbs
    obtain ⟨hqs, honward, -⟩ :=
      rtp_quic_demux_parse_new_packet_shape _ _ _ _ _ _ hp
    unfold gst_rtp_quic_demux_chain_stream
    simp only [h1]
    rw [if_neg h3]
    simp only [hb0, hp]
    simp only [hbs, Option.getD_some]
    by_cases hc : st2.expected_payloadlen ≤ bs.length ∨ final = true
    · rw [if_pos hc]
      split
      · rename_i hcc
        exfalso
        rcases hc with hle | hft
        · omega
        · rw [hft] at hcc
          simp at hcc
      · split
        · rename_i hft
          refine ⟨rfl, ?_, fun _ => ?_, fun hff => ?_⟩
          · rw [honward]
          · rw [hqs]
            exact alist_remove_lookup_self _ _ hnodup
          · rw [hff] at hft
            exact absurd hft (by simp)
        · rename_i hff
          refine ⟨rfl, ?_, fun hft => absurd hft hff,
            fun _ => alist_put_lookup_self _ _ _⟩
          rw [honward]
    · rw [if_neg hc]
      push_neg at hc
      split
      · exact ⟨rfl, rfl, alist_put_lookup_self _ _ _, by omega⟩
      · rename_i hcc
        exfalso
        apply hcc
        exact ⟨by omega, Bool.eq_false_iff.mpr hc.2⟩

/-- Witness for C3: a stream with expected payload length 5 and 3 buffered
bytes receives a 2-byte non-final chunk; the 5-byte packet is emitted on the
onward pad and the reassembly buffer is empty afterwards. -/
theorem reassembly_emit_dichotomy_witness :
    ((gst_rtp_quic_demux_chain_stream
      ({ rtp_flow_id := 7, rtcp_flow_id := 8, uni_stream_type := 0,
         match_uni_stream_type := false, src_ssrcs := [], src_ssrcs_rtcp := [],
         quic_streams := [(4, { onward_src_pad := (PadKind.rtp, 0),
                                expected_payloadlen := 5,
                                buf := some [1, 2, 3] })],
         pending_req_sinks := [], next_pad := 1 } : GstRtpQuicDemux)
      4 600 false [4, 5]).emitted =
      some ((PadKind.rtp, 0), [1, 2, 3, 4, 5])) ∧
    ((gst_rtp_quic_demux_chain_stream
      ({ rtp_flow_id := 7, rtcp_flow_id := 8, uni_stream_type := 0,
         match_uni_stream_type := false, src_ssrcs := [], src_ssrcs_rtcp := [],
         quic_streams := [(4, { onward_src_pad := (PadKind.rtp, 0),
                                expected_payloadlen := 5,
                                buf := some [1, 2, 3] })],
         pending_req_sinks := [], next_pad := 1 } : GstRtpQuicDemux)
      4 600 false [4, 5]).roqdemux.quic_streams.lookup 4 =
      some { onward_src_pad := (PadKind.rtp, 0), expected_payloadlen := 5,
             buf := none }) := by
  have h := (reassembly_emit_dichotomy
    ({ rtp_flow_id := 7, rtcp_flow_id := 8, uni_stream_type := 0,
       match_uni_stream_type := false, src_ssrcs := [], src_ssrcs_rtcp := [],
       quic_streams := [(4, { onward_src_pad := (PadKind.rtp, 0),
                              expected_payloadlen := 5,
                              buf := some [1, 2, 3] })],
       pending_req_sinks := [], next_pad := 1 } : GstRtpQuicDemux)
    4 600 false [4, 5]
    { onward_src_pad := (PadKind.rtp, 0), expected_payloadlen := 5,
      buf := some [1, 2, 3] }
    (by decide) (by decide) (by decide)).1 [1, 2, 3] rfl
  rw [if_pos (by decide)] at h
  exact ⟨h.2.1, h.2.2.2 rfl⟩
